import Mathlib

/-!
Verification of the torq profiling orchestrator.

This file gives a shallow embedding of the orchestration core of the
repository (the polling utility in device.py, the run loop of
ProfilerCommandExecutor.execute_command in src/command_executor.py,
command validation in command.py, config building in src/config_builder.py
and argument verification in torq.py) and proves properties of it.

Conventions of the embedding:
- a Python function that returns None or a ValidationError is modelled as
  returning an Option ValidationError (or the richer StepResult below when
  the function can also raise);
- a raised Python exception is modelled as the Fatal channel of a result
  type, never as a returned value;
- real time is discretised: one call to time.sleep(interval) advances the
  clock by exactly interval seconds, and the clock is read only where the
  source reads it;
- device interactions are recorded in an explicit event trace so that
  statements of the form "hook X is invoked N times" become statements
  about the trace.
-/

namespace Torq

/-- Models validation_error.ValidationError: a recoverable error returned as
a value, carrying a message and an optional suggestion. -/
structure ValidationError where
  message : String
  suggestion : Option String
deriving DecidableEq, Repr

/-- Models a raised Python exception (an unrecoverable fatal fault). -/
structure Fatal where
  msg : String
deriving DecidableEq, Repr

/-- The two profilers of the tool (command.profiler). -/
inductive Profiler where
  | perfetto
  | simpleperf
deriving DecidableEq, Repr

/-- One observable action of AdbDevice.poll_is_task_completed: a call to
time.sleep(interval), or an evaluation of the polled predicate together
with the value it returned. -/
inductive PollEv where
  | sleepEv
  | checkEv (result : Bool)
deriving DecidableEq, Repr

/-- Loop body of AdbDevice.poll_is_task_completed (device.py).  The k-th
iteration sleeps one interval (so the clock reads (k+1) * interval
afterwards), evaluates the predicate, returns true on success and false
once the elapsed time exceeds the timeout.  The fuel argument only bounds
the recursion; poll_is_task_completed supplies enough of it for the fuel
never to run out. -/
def pollGo (timedOutLimit interval : ℚ) (check : ℕ → Bool) :
    ℕ → ℕ → Bool × List PollEv
  | 0, _ => (false, [])
  | fuel + 1, k =>
    let c := check k
    if c then
      (true, [.sleepEv, .checkEv c])
    else if ((k : ℚ) + 1) * interval > timedOutLimit then
      (false, [.sleepEv, .checkEv c])
    else
      let r := pollGo timedOutLimit interval check fuel (k + 1)
      (r.1, .sleepEv :: .checkEv c :: r.2)

/-- Models AdbDevice.poll_is_task_completed (device.py lines 80-88): sleep
one interval, evaluate the predicate, stop with true on the first success,
stop with false once the elapsed time exceeds timed_out_limit. -/
def poll_is_task_completed (timedOutLimit interval : ℚ) (check : ℕ → Bool) :
    Bool × List PollEv :=
  pollGo timedOutLimit interval check (Nat.ceil (timedOutLimit / interval) + 1) 0

lemma pollGo_spec (t i : ℚ) (check : ℕ → Bool) :
    ∀ fuel k : ℕ, 0 < fuel → t < ((k : ℚ) + (fuel : ℚ)) * i →
    ∃ m, 0 < m ∧
      (pollGo t i check fuel k).2
        = (List.range' k m).flatMap (fun j => [.sleepEv, .checkEv (check j)]) ∧
      ((pollGo t i check fuel k).1 = true ↔ ∃ j ∈ List.range' k m, check j = true) ∧
      ((pollGo t i check fuel k).1 = false →
        check (k + m - 1) = false ∧ ((k : ℚ) + (m : ℚ)) * i > t) := by
  intro fuel
  induction fuel with
  | zero => intro k h0 _; exact absurd h0 (by simp)
  | succ fuel ih =>
    intro k _ hlt
    by_cases hc : check k = true
    · refine ⟨1, by norm_num, ?_, ?_, ?_⟩
      · simp [pollGo, hc]
      · simp [pollGo, hc, List.range']
      · simp [pollGo, hc]
    · simp only [Bool.not_eq_true] at hc
      by_cases htime : ((k : ℚ) + 1) * i > t
      · refine ⟨1, by norm_num, ?_, ?_, ?_⟩
        · simp [pollGo, hc, htime]
        · simp [pollGo, hc, htime, List.range']
        · intro _
          constructor
          · simpa using hc
          · simpa using htime
      · have hfuel : 0 < fuel := by
          by_contra hz
          have : fuel = 0 := by omega
          subst this
          apply htime
          simpa using hlt
        have hlt2 : t < (((k + 1 : ℕ) : ℚ) + (fuel : ℚ)) * i := by
          push_cast
          push_cast at hlt
          linarith
        obtain ⟨m, hm0, hevs, hiff, hfalse⟩ := ih (k + 1) hfuel hlt2
        refine ⟨m + 1, by omega, ?_, ?_, ?_⟩
        · have hrange : List.range' k (m + 1) = k :: List.range' (k + 1) m :=
            List.range'_succ k m 1
          simp [pollGo, hc, htime, hrange, hevs]
        · have hrange : List.range' k (m + 1) = k :: List.range' (k + 1) m :=
            List.range'_succ k m 1
          simp only [pollGo, hc, htime]
          simp only [hrange, List.mem_cons]
          constructor
          · intro h1
            obtain ⟨j, hj, hcj⟩ := hiff.mp (by simpa using h1)
            exact ⟨j, Or.inr hj, hcj⟩
          · rintro ⟨j, hj | hj, hcj⟩
            · subst hj; exact absurd hcj (by simp [hc])
            · simpa using hiff.mpr ⟨j, hj, hcj⟩
        · intro h1
          simp only [pollGo, hc, htime] at h1
          obtain ⟨hlast, helapsed⟩ := hfalse (by simpa using h1)
          constructor
          · have : k + (m + 1) - 1 = k + 1 + m - 1 := by omega
            rw [this]
            exact hlast
          · push_cast
            push_cast at helapsed
            linarith

lemma poll_spec (t i : ℚ) (check : ℕ → Bool) (ht : 0 ≤ t) (hi : 0 < i) :
    ∃ m, 0 < m ∧
      (poll_is_task_completed t i check).2
        = (List.range' 0 m).flatMap (fun j => [.sleepEv, .checkEv (check j)]) ∧
      ((poll_is_task_completed t i check).1 = true ↔ ∃ j < m, check j = true) ∧
      ((poll_is_task_completed t i check).1 = false →
        check (m - 1) = false ∧ (m : ℚ) * i > t) := by
  have hfuel : t < (((0 : ℕ) : ℚ) + ((Nat.ceil (t / i) + 1 : ℕ) : ℚ)) * i := by
    have hceil : t / i ≤ (Nat.ceil (t / i) : ℚ) := Nat.le_ceil (t / i)
    have hdiv : (t / i) * i = t := div_mul_cancel₀ t (ne_of_gt hi)
    push_cast
    nlinarith
  obtain ⟨m, hm0, hevs, hiff, hfalse⟩ :=
    pollGo_spec t i check (Nat.ceil (t / i) + 1) 0 (by omega) hfuel
  refine ⟨m, hm0, ?_, ?_, ?_⟩
  · simpa [poll_is_task_completed] using hevs
  · rw [poll_is_task_completed] at *
    rw [hiff]
    constructor
    · rintro ⟨j, hj, hcj⟩
      exact ⟨j, by simpa using (List.mem_range'_1.mp hj).2, hcj⟩
    · rintro ⟨j, hj, hcj⟩
      exact ⟨j, List.mem_range'_1.mpr ⟨Nat.zero_le j, by simpa using hj⟩, hcj⟩
  · intro h1
    rw [poll_is_task_completed] at h1
    obtain ⟨hlast, helapsed⟩ := hfalse h1
    refine ⟨by simpa using hlast, by simpa using helapsed⟩

/-- Claim C10: for every timeout (including zero), every positive interval
and every predicate, poll_is_task_completed performs at least one
sleep-then-check iteration, with the sleep strictly before the first check;
it returns true exactly when one of the evaluated checks succeeded, and it
returns false only once the elapsed time (number of full intervals slept)
exceeds the timeout and the most recent check failed. -/
theorem claim_C10_poll_is_task_completed (t i : ℚ) (check : ℕ → Bool)
    (ht : 0 ≤ t) (hi : 0 < i) :
    (poll_is_task_completed t i check).2.head? = some .sleepEv ∧
    ∃ m, 0 < m ∧
      (poll_is_task_completed t i check).2
        = (List.range' 0 m).flatMap (fun j => [.sleepEv, .checkEv (check j)]) ∧
      ((poll_is_task_completed t i check).1 = true ↔ ∃ j < m, check j = true) ∧
      ((poll_is_task_completed t i check).1 = false →
        check (m - 1) = false ∧ (m : ℚ) * i > t) := by
  obtain ⟨m, hm0, hevs, hiff, hfalse⟩ := poll_spec t i check ht hi
  refine ⟨?_, m, hm0, hevs, hiff, hfalse⟩
  obtain ⟨m', rfl⟩ : ∃ m', m = m' + 1 := ⟨m - 1, by omega⟩
  rw [hevs, List.range'_succ 0 m' 1]
  simp

/-- Witness for claim C10 at timeout 0, interval 1 and the constantly false
predicate. -/
theorem claim_C10_poll_is_task_completed_witness :
    (0 : ℚ) ≤ 0 ∧ (0 : ℚ) < 1 ∧
    ((poll_is_task_completed 0 1 (fun _ => false)).2.head? = some .sleepEv ∧
    ∃ m, 0 < m ∧
      (poll_is_task_completed 0 1 (fun _ => false)).2
        = (List.range' 0 m).flatMap (fun j => [.sleepEv, .checkEv false]) ∧
      ((poll_is_task_completed 0 1 (fun _ => false)).1 = true ↔
        ∃ j < m, false = true) ∧
      ((poll_is_task_completed 0 1 (fun _ => false)).1 = false →
        false = false ∧ (m : ℚ) * 1 > 0)) :=
  ⟨le_refl 0, by norm_num,
    by simpa using
      claim_C10_poll_is_task_completed 0 1 (fun _ => false) (le_refl 0) (by norm_num)⟩

/-- Outcome of one orchestration step (a hook call of the run loop): the
hook returned None, returned a ValidationError, or raised an exception. -/
inductive StepResult where
  | ok
  | err (e : ValidationError)
  | fatal (f : Fatal)
deriving DecidableEq, Repr

/-- Outcome of a whole execute_command call: a returned value (None or a
ValidationError) or a propagated exception. -/
inductive ExecResult where
  | ret (e : Option ValidationError)
  | fatal (f : Fatal)
deriving DecidableEq, Repr

/-- Hook invocations and waits observable in
ProfilerCommandExecutor.execute_command, recorded per run (1-based). -/
inductive Ev where
  | createConfigEv
  | prepareDeviceEv
  | prepareRunEv (run : ℕ)
  | executeRunEv (run : ℕ)
  | retrieveEv (run : ℕ)
  | promptEv (run : ℕ)
  | sleepBetweenEv (run : ℕ)
  | cleanupEv
  | openUiEv
deriving DecidableEq, Repr

/-- Behaviour of the polymorphic hooks and of the environment during one
execute_command call (src/src/command_executor.py).  The five hooks are the
variant-overridable methods; arrive1 and arrive2 model the asynchronous
signal handler: arrive1 run (arrive2 run) is true when a SIGINT/SIGTERM
arrived between the previous observation point of the cooperative
trace_cancelled flag and its read before execute_run (respectively its read
after retrieval) of the given run.  contAnswer run is the interactive
answer to the continue-with-remaining-runs prompt. -/
structure HookSpec where
  createConfig : StepResult
  prepareDevice : StepResult
  prepareRun : ℕ → StepResult
  executeRun : ℕ → StepResult
  retrieve : ℕ → StepResult
  cleanup : Option ValidationError
  openTrace : Option ValidationError
  arrive1 : ℕ → Bool
  arrive2 : ℕ → Bool
  contAnswer : ℕ → Bool

/-- Code that follows the run loop in execute_command: the final cleanup
call, the error check on its result, and the conditional open_trace call. -/
def loopFinishResult (h : HookSpec) (ui : Bool) : ExecResult :=
  match h.cleanup with
  | some e => .ret (some e)
  | none =>
    if ui then
      match h.openTrace with
      | some e => .ret (some e)
      | none => .ret none
    else .ret none

/-- Events emitted after the run loop exits normally. -/
def loopFinishEvents (ui : Bool) : List Ev :=
  .cleanupEv :: (if ui then [.openUiEv] else [])

/-- The for-run-in-range loop of execute_command
(src/src/command_executor.py lines 77-119), processing the given list of
run numbers with the given current value of the trace_cancelled flag.
Each iteration: per-variant pre-run preparation; read of trace_cancelled
with early cleanup-and-return when it is set; execute_run; artifact
retrieval; and, when more runs remain, a second flag read that may prompt
whether to continue (aborting to cleanup on a negative answer, clearing
the flag otherwise) followed by the inter-run sleep.  An error returned by
any step is returned at once; a raised exception propagates. -/
def loopGo (h : HookSpec) (runs : ℕ) (ui : Bool) :
    Bool → List ℕ → ExecResult × List Ev
  | _, [] =>
    (loopFinishResult h ui, loopFinishEvents ui)
  | flag, run :: rest =>
    match h.prepareRun run with
    | .fatal f => (.fatal f, [.prepareRunEv run])
    | .err e => (.ret (some e), [.prepareRunEv run])
    | .ok =>
      let flag1 := flag || h.arrive1 run
      if flag1 then
        (.ret h.cleanup, [.prepareRunEv run, .cleanupEv])
      else
        match h.executeRun run with
        | .fatal f => (.fatal f, [.prepareRunEv run, .executeRunEv run])
        | .err e => (.ret (some e), [.prepareRunEv run, .executeRunEv run])
        | .ok =>
          match h.retrieve run with
          | .fatal f =>
            (.fatal f, [.prepareRunEv run, .executeRunEv run, .retrieveEv run])
          | .err e =>
            (.ret (some e),
              [.prepareRunEv run, .executeRunEv run, .retrieveEv run])
          | .ok =>
            if runs ≠ run then
              let flag2 := flag1 || h.arrive2 run
              if flag2 then
                if h.contAnswer run then
                  let r := loopGo h runs ui false rest
                  (r.1, [.prepareRunEv run, .executeRunEv run, .retrieveEv run,
                    .promptEv run, .sleepBetweenEv run] ++ r.2)
                else
                  (.ret h.cleanup,
                    [.prepareRunEv run, .executeRunEv run, .retrieveEv run,
                      .promptEv run, .cleanupEv])
              else
                let r := loopGo h runs ui flag2 rest
                (r.1, [.prepareRunEv run, .executeRunEv run, .retrieveEv run,
                  .sleepBetweenEv run] ++ r.2)
            else
              let r := loopGo h runs ui flag1 rest
              (r.1,
                [.prepareRunEv run, .executeRunEv run, .retrieveEv run] ++ r.2)

/-- Models ProfilerCommandExecutor.execute_command
(src/src/command_executor.py lines 68-119): build the configuration once,
arm the device once, run the loop over runs 1..runs with the
trace_cancelled flag initially false, then clean up and optionally open
the UI. -/
def execute_command (h : HookSpec) (runs : ℕ) (ui : Bool) :
    ExecResult × List Ev :=
  match h.createConfig with
  | .fatal f => (.fatal f, [.createConfigEv])
  | .err e => (.ret (some e), [.createConfigEv])
  | .ok =>
    match h.prepareDevice with
    | .fatal f => (.fatal f, [.createConfigEv, .prepareDeviceEv])
    | .err e => (.ret (some e), [.createConfigEv, .prepareDeviceEv])
    | .ok =>
      let r := loopGo h runs ui false (List.range' 1 runs)
      (r.1, .createConfigEv :: .prepareDeviceEv :: r.2)

/-- Recognisers for the per-run hook events. -/
def isPrepareRunEv : Ev → Bool
  | .prepareRunEv _ => true
  | _ => false

def isExecuteRunEv : Ev → Bool
  | .executeRunEv _ => true
  | _ => false

def isRetrieveEv : Ev → Bool
  | .retrieveEv _ => true
  | _ => false

def isSleepBetweenEv : Ev → Bool
  | .sleepBetweenEv _ => true
  | _ => false

def isCleanupEv : Ev → Bool
  | .cleanupEv => true
  | _ => false

/-- The events of one error-free, cancellation-free iteration for the given
run number: preparation, run execution and retrieval in order, followed by
the inter-run sleep on every run but the last. -/
def runBlock (runs run : ℕ) : List Ev :=
  [.prepareRunEv run, .executeRunEv run, .retrieveEv run]
    ++ (if runs ≠ run then [.sleepBetweenEv run] else [])

/-- The full event trace of an error-free, cancellation-free
execute_command call with the given number of runs. -/
def canonicalTrace (runs : ℕ) (ui : Bool) : List Ev :=
  .createConfigEv :: .prepareDeviceEv ::
    ((List.range' 1 runs).flatMap (runBlock runs) ++ loopFinishEvents ui)

lemma loopGo_clean (h : HookSpec) (runs : ℕ) (ui : Bool)
    (hpr : ∀ r, h.prepareRun r = .ok) (hex : ∀ r, h.executeRun r = .ok)
    (hrt : ∀ r, h.retrieve r = .ok)
    (ha1 : ∀ r, h.arrive1 r = false) (ha2 : ∀ r, h.arrive2 r = false) :
    ∀ m r0, loopGo h runs ui false (List.range' r0 m)
      = (loopFinishResult h ui,
         (List.range' r0 m).flatMap (runBlock runs) ++ loopFinishEvents ui) := by
  intro m
  induction m with
  | zero => intro r0; simp [loopGo]
  | succ m ih =>
    intro r0
    rw [List.range'_succ r0 m 1]
    by_cases hr : runs = r0
    · subst hr
      simp [loopGo, hpr, hex, hrt, ha1, ha2, ih (runs + 1), runBlock]
    · simp [loopGo, hpr, hex, hrt, ha1, ha2, hr, ih (r0 + 1), runBlock]

lemma countP_runBlock_prep (runs r : ℕ) :
    (runBlock runs r).countP isPrepareRunEv = 1 := by
  by_cases hr : runs = r <;>
    simp [runBlock, hr, isPrepareRunEv, List.countP_cons, List.countP_append]

lemma countP_runBlock_exec (runs r : ℕ) :
    (runBlock runs r).countP isExecuteRunEv = 1 := by
  by_cases hr : runs = r <;>
    simp [runBlock, hr, isExecuteRunEv, List.countP_cons, List.countP_append]

lemma countP_runBlock_retr (runs r : ℕ) :
    (runBlock runs r).countP isRetrieveEv = 1 := by
  by_cases hr : runs = r <;>
    simp [runBlock, hr, isRetrieveEv, List.countP_cons, List.countP_append]

lemma countP_runBlock_sleep (runs r : ℕ) :
    (runBlock runs r).countP isSleepBetweenEv
      = (if runs ≠ r then 1 else 0) := by
  by_cases hr : runs = r <;>
    simp [runBlock, hr, isSleepBetweenEv, List.countP_cons, List.countP_append]

lemma countP_blocks_prep (runs : ℕ) : ∀ m r0,
    ((List.range' r0 m).flatMap (runBlock runs)).countP isPrepareRunEv = m := by
  intro m
  induction m with
  | zero => intro r0; simp
  | succ m ih =>
    intro r0
    rw [List.range'_succ r0 m 1]
    simp [List.countP_append, countP_runBlock_prep, ih (r0 + 1)]
    omega

lemma countP_blocks_exec (runs : ℕ) : ∀ m r0,
    ((List.range' r0 m).flatMap (runBlock runs)).countP isExecuteRunEv = m := by
  intro m
  induction m with
  | zero => intro r0; simp
  | succ m ih =>
    intro r0
    rw [List.range'_succ r0 m 1]
    simp [List.countP_append, countP_runBlock_exec, ih (r0 + 1)]
    omega

lemma countP_blocks_retr (runs : ℕ) : ∀ m r0,
    ((List.range' r0 m).flatMap (runBlock runs)).countP isRetrieveEv = m := by
  intro m
  induction m with
  | zero => intro r0; simp
  | succ m ih =>
    intro r0
    rw [List.range'_succ r0 m 1]
    simp [List.countP_append, countP_runBlock_retr, ih (r0 + 1)]
    omega

lemma countP_blocks_sleep (runs : ℕ) : ∀ m r0, r0 + m = runs + 1 →
    ((List.range' r0 m).flatMap (runBlock runs)).countP isSleepBetweenEv
      = m - 1 := by
  intro m
  induction m with
  | zero => intro r0 _; simp
  | succ m ih =>
    intro r0 hsum
    rw [List.range'_succ r0 m 1]
    rcases Nat.eq_zero_or_pos m with hm | hm
    · subst hm
      have hr : runs = r0 := by omega
      simp [List.countP_append, countP_runBlock_sleep, hr]
    · have hr : runs ≠ r0 := by omega
      have hrec := ih (r0 + 1) (by omega)
      simp only [List.flatMap_cons, List.countP_append, countP_runBlock_sleep,
        hrec, if_pos hr]
      omega

/-- Claim C2: for an execution with runs = N that encounters no error, no
raised fault and no cancellation signal, the event trace is exactly the
canonical trace — per run the pre-run preparation, the run execution and
the artifact retrieval in that order, with the inter-run sleep only
between consecutive runs — so each of the three hooks is invoked exactly
N times and the sleep exactly N - 1 times. -/
theorem claim_C2_run_loop_counts (h : HookSpec) (N : ℕ) (ui : Bool)
    (hN : 1 ≤ N)
    (hcc : h.createConfig = .ok) (hpd : h.prepareDevice = .ok)
    (hpr : ∀ r, h.prepareRun r = .ok) (hex : ∀ r, h.executeRun r = .ok)
    (hrt : ∀ r, h.retrieve r = .ok)
    (ha1 : ∀ r, h.arrive1 r = false) (ha2 : ∀ r, h.arrive2 r = false) :
    (execute_command h N ui).2 = canonicalTrace N ui ∧
    (execute_command h N ui).2.countP isPrepareRunEv = N ∧
    (execute_command h N ui).2.countP isExecuteRunEv = N ∧
    (execute_command h N ui).2.countP isRetrieveEv = N ∧
    (execute_command h N ui).2.countP isSleepBetweenEv = N - 1 := by
  have hloop := loopGo_clean h N ui hpr hex hrt ha1 ha2 N 1
  have htrace : (execute_command h N ui).2 = canonicalTrace N ui := by
    simp [execute_command, hcc, hpd, hloop, canonicalTrace]
  refine ⟨htrace, ?_, ?_, ?_, ?_⟩
  · rw [htrace]
    simp only [canonicalTrace, List.countP_cons, List.countP_append]
    rw [countP_blocks_prep N N 1]
    cases ui <;> simp [isPrepareRunEv, loopFinishEvents, List.countP_cons]
  · rw [htrace]
    simp only [canonicalTrace, List.countP_cons, List.countP_append]
    rw [countP_blocks_exec N N 1]
    cases ui <;> simp [isExecuteRunEv, loopFinishEvents, List.countP_cons]
  · rw [htrace]
    simp only [canonicalTrace, List.countP_cons, List.countP_append]
    rw [countP_blocks_retr N N 1]
    cases ui <;> simp [isRetrieveEv, loopFinishEvents, List.countP_cons]
  · rw [htrace]
    simp only [canonicalTrace, List.countP_cons, List.countP_append]
    rw [countP_blocks_sleep N N 1 (by omega)]
    cases ui <;> simp [isSleepBetweenEv, loopFinishEvents, List.countP_cons]

/-- Witness for claim C2 with two clean runs. -/
theorem claim_C2_run_loop_counts_witness :
    (execute_command
      ⟨.ok, .ok, fun _ => .ok, fun _ => .ok, fun _ => .ok, none, none,
        fun _ => false, fun _ => false, fun _ => true⟩ 2 true).2
        = canonicalTrace 2 true ∧
    (execute_command
      ⟨.ok, .ok, fun _ => .ok, fun _ => .ok, fun _ => .ok, none, none,
        fun _ => false, fun _ => false, fun _ => true⟩ 2 true).2.countP
        isPrepareRunEv = 2 ∧
    (execute_command
      ⟨.ok, .ok, fun _ => .ok, fun _ => .ok, fun _ => .ok, none, none,
        fun _ => false, fun _ => false, fun _ => true⟩ 2 true).2.countP
        isExecuteRunEv = 2 ∧
    (execute_command
      ⟨.ok, .ok, fun _ => .ok, fun _ => .ok, fun _ => .ok, none, none,
        fun _ => false, fun _ => false, fun _ => true⟩ 2 true).2.countP
        isRetrieveEv = 2 ∧
    (execute_command
      ⟨.ok, .ok, fun _ => .ok, fun _ => .ok, fun _ => .ok, none, none,
        fun _ => false, fun _ => false, fun _ => true⟩ 2 true).2.countP
        isSleepBetweenEv = 2 - 1 :=
  claim_C2_run_loop_counts _ 2 true (by norm_num) rfl rfl
    (fun _ => rfl) (fun _ => rfl) (fun _ => rfl) (fun _ => rfl) (fun _ => rfl)

lemma loopGo_cleanup_le_one (h : HookSpec) (runs : ℕ) (ui : Bool) :
    ∀ (l : List ℕ) (flag : Bool),
      (loopGo h runs ui flag l).2.countP isCleanupEv ≤ 1 := by
  intro l
  induction l with
  | nil =>
    intro flag
    cases ui <;>
      simp [loopGo, loopFinishEvents, isCleanupEv, List.countP_cons]
  | cons run rest ih =>
    intro flag
    cases hpr : h.prepareRun run with
    | fatal f => simp [loopGo, hpr, isCleanupEv, List.countP_cons]
    | err e => simp [loopGo, hpr, isCleanupEv, List.countP_cons]
    | ok =>
      cases hex : h.executeRun run with
      | fatal f =>
        cases hf : flag <;> cases ha1 : h.arrive1 run <;>
          simp [loopGo, hpr, hex, hf, ha1, isCleanupEv, List.countP_cons]
      | err e =>
        cases hf : flag <;> cases ha1 : h.arrive1 run <;>
          simp [loopGo, hpr, hex, hf, ha1, isCleanupEv, List.countP_cons]
      | ok =>
        cases hrt : h.retrieve run with
        | fatal f =>
          cases hf : flag <;> cases ha1 : h.arrive1 run <;>
            simp [loopGo, hpr, hex, hrt, hf, ha1, isCleanupEv,
              List.countP_cons]
        | err e =>
          cases hf : flag <;> cases ha1 : h.arrive1 run <;>
            simp [loopGo, hpr, hex, hrt, hf, ha1, isCleanupEv,
              List.countP_cons]
        | ok =>
          by_cases hlast : runs = run <;>
            cases hf : flag <;> cases ha1 : h.arrive1 run <;>
              cases ha2 : h.arrive2 run <;> cases hans : h.contAnswer run <;>
                simp [loopGo, hpr, hex, hrt, hf, ha1, ha2, hans, hlast,
                  isCleanupEv, List.countP_cons, List.countP_append] <;>
                  first
                    | exact ih false
                    | exact hlast ▸ ih false
                    | omega

lemma loopGo_cleanup_one (h : HookSpec) (runs : ℕ) (ui : Bool)
    (hpr : ∀ r, h.prepareRun r = .ok) (hex : ∀ r, h.executeRun r = .ok)
    (hrt : ∀ r, h.retrieve r = .ok) :
    ∀ (l : List ℕ) (flag : Bool),
      (loopGo h runs ui flag l).2.countP isCleanupEv = 1 := by
  intro l
  induction l with
  | nil =>
    intro flag
    cases ui <;>
      simp [loopGo, loopFinishEvents, isCleanupEv, List.countP_cons]
  | cons run rest ih =>
    intro flag
    by_cases hlast : runs = run <;>
      cases hf : flag <;> cases ha1 : h.arrive1 run <;>
        cases ha2 : h.arrive2 run <;> cases hans : h.contAnswer run <;>
          simp [loopGo, hpr, hex, hrt, hf, ha1, ha2, hans, hlast,
            isCleanupEv, List.countP_cons, List.countP_append] <;>
            first
              | exact ih false
              | exact hlast ▸ ih false
              | omega

/-- Claim C1 (amended): the variant-specific cleanup hook is invoked at
most once per execute_command call, and exactly once whenever no step
(config building, device arming, per-run preparation, run execution or
artifact retrieval) returns an error or raises — in particular exactly
once on every cancellation path.  When a step returns an error or raises,
execute_command returns without invoking cleanup (see the
counterexample). -/
theorem claim_C1_cleanup_amended (h : HookSpec) (N : ℕ) (ui : Bool) :
    (execute_command h N ui).2.countP isCleanupEv ≤ 1 ∧
    (h.createConfig = .ok → h.prepareDevice = .ok →
      (∀ r, h.prepareRun r = .ok) → (∀ r, h.executeRun r = .ok) →
      (∀ r, h.retrieve r = .ok) →
      (execute_command h N ui).2.countP isCleanupEv = 1) := by
  constructor
  · cases hcc : h.createConfig <;>
      [skip; simp [execute_command, hcc, isCleanupEv, List.countP_cons];
        simp [execute_command, hcc, isCleanupEv, List.countP_cons]]
    cases hpd : h.prepareDevice <;>
      [skip; simp [execute_command, hcc, hpd, isCleanupEv, List.countP_cons];
        simp [execute_command, hcc, hpd, isCleanupEv, List.countP_cons]]
    have := loopGo_cleanup_le_one h N ui (List.range' 1 N) false
    simpa [execute_command, hcc, hpd, isCleanupEv, List.countP_cons]
      using this
  · intro hcc hpd hpr hex hrt
    have := loopGo_cleanup_one h N ui hpr hex hrt (List.range' 1 N) false
    simpa [execute_command, hcc, hpd, isCleanupEv, List.countP_cons]
      using this

/-- Hook behaviour in which every step succeeds but a signal arrives
during run 2 of 3 and the operator declines to continue: exercises the
cancellation path of the amended claim C1. -/
def c1CancelHooks : HookSpec where
  createConfig := .ok
  prepareDevice := .ok
  prepareRun := fun _ => .ok
  executeRun := fun _ => .ok
  retrieve := fun _ => .ok
  cleanup := none
  openTrace := none
  arrive1 := fun r => r == 2
  arrive2 := fun _ => false
  contAnswer := fun _ => false

/-- Witness for claim C1 on a concrete cancelled execution. -/
theorem claim_C1_cleanup_amended_witness :
    (execute_command c1CancelHooks 3 true).2.countP isCleanupEv ≤ 1 ∧
    (execute_command c1CancelHooks 3 true).2.countP isCleanupEv = 1 :=
  ⟨(claim_C1_cleanup_amended c1CancelHooks 3 true).1,
    (claim_C1_cleanup_amended c1CancelHooks 3 true).2 rfl rfl
      (fun _ => rfl) (fun _ => rfl) (fun _ => rfl)⟩

/-- Hook behaviour in which the run-execution step of run 1 returns a
ValidationError (as happens when the app-startup trigger launches a
service package) and every other step would succeed. -/
def c1FailingHooks : HookSpec where
  createConfig := .ok
  prepareDevice := .ok
  prepareRun := fun _ => .ok
  executeRun := fun _ =>
    .err ⟨"Cannot start package because it is a service package.", none⟩
  retrieve := fun _ => .ok
  cleanup := none
  openTrace := none
  arrive1 := fun _ => false
  arrive2 := fun _ => false
  contAnswer := fun _ => true

/-- Counterexample to claim C1 as stated: when a per-run step (here the
run execution of run 1) returns an error, execute_command returns at once
and the cleanup hook is invoked zero times, not once — even though the
run loop was reached and executed the failing step. -/
theorem claim_C1_counterexample :
    (execute_command c1FailingHooks 1 false).2.countP isCleanupEv = 0 ∧
    Ev.executeRunEv 1 ∈ (execute_command c1FailingHooks 1 false).2 := by
  constructor
  · rfl
  · decide

/-- Claim C3: if create_config returns an error, execute_command returns
that error immediately and its trace is the config-building step alone, so
no device-mutating hook (device arming, per-run preparation, run
execution / trigger, artifact retrieval) is ever invoked. -/
theorem claim_C3_create_config_error (h : HookSpec) (N : ℕ) (ui : Bool)
    (e : ValidationError) (hcc : h.createConfig = .err e) :
    execute_command h N ui = (.ret (some e), [.createConfigEv]) ∧
    Ev.prepareDeviceEv ∉ (execute_command h N ui).2 ∧
    (∀ r, Ev.prepareRunEv r ∉ (execute_command h N ui).2 ∧
      Ev.executeRunEv r ∉ (execute_command h N ui).2 ∧
      Ev.retrieveEv r ∉ (execute_command h N ui).2) := by
  simp [execute_command, hcc]

/-- Hook behaviour whose config-building step fails. -/
def c3Hooks : HookSpec where
  createConfig := .err ⟨"Cannot create config.", none⟩
  prepareDevice := .ok
  prepareRun := fun _ => .ok
  executeRun := fun _ => .ok
  retrieve := fun _ => .ok
  cleanup := none
  openTrace := none
  arrive1 := fun _ => false
  arrive2 := fun _ => false
  contAnswer := fun _ => true

/-- Witness for claim C3 on a concrete failing configuration. -/
theorem claim_C3_create_config_error_witness :
    execute_command c3Hooks 2 true
      = (.ret (some ⟨"Cannot create config.", none⟩), [.createConfigEv]) ∧
    Ev.prepareDeviceEv ∉ (execute_command c3Hooks 2 true).2 ∧
    (∀ r, Ev.prepareRunEv r ∉ (execute_command c3Hooks 2 true).2 ∧
      Ev.executeRunEv r ∉ (execute_command c3Hooks 2 true).2 ∧
      Ev.retrieveEv r ∉ (execute_command c3Hooks 2 true).2) :=
  claim_C3_create_config_error c3Hooks 2 true ⟨"Cannot create config.", none⟩ rfl

/-- Timeout and interval constants of device.py and
src/src/command_executor.py, in seconds. -/
def ADB_ROOT_TIMED_OUT_LIMIT_SECS : ℚ := 5

def ADB_BOOT_COMPLETED_TIMED_OUT_LIMIT_SECS : ℚ := 30

def POLLING_INTERVAL_SECS : ℚ := 1 / 2

def SIMPLEPERF_STOP_TIMEOUT_SECS : ℚ := 60

/-- Observable device interactions of root_device,
wait_for_boot_to_complete, stop_process and execute_run. -/
inductive AdbEv where
  | adbRootCmdEv
  | pollEv
  | sendSignalEv
  | killProcessEv
  | startTraceEv (p : Profiler)
  | traceStartDelayEv
  | triggerSystemEventEv
  | waitTraceIterEv
  | checkRunningEv
deriving DecidableEq, Repr

/-- Models AdbDevice.root_device (device.py lines 90-97): issue adb root,
then bound-wait for the device to reconnect; the connected stream gives
the value of the polled reconnection predicate at each poll iteration.
A timeout raises an exception (the Fatal channel); the function has no
ValidationError return path. -/
def root_device (connected : ℕ → Bool) : Except Fatal Unit × List AdbEv :=
  if (poll_is_task_completed ADB_ROOT_TIMED_OUT_LIMIT_SECS
      POLLING_INTERVAL_SECS connected).1 then
    (.ok (), [.adbRootCmdEv, .pollEv])
  else
    (.error ⟨"Device took too long to reconnect after being rooted."⟩,
      [.adbRootCmdEv, .pollEv])

/-- Models AdbDevice.wait_for_boot_to_complete (device.py lines 156-161):
bound-wait for the boot-completed property; a timeout raises. -/
def wait_for_boot_to_complete (bootCompleted : ℕ → Bool) :
    Except Fatal Unit × List AdbEv :=
  if (poll_is_task_completed ADB_BOOT_COMPLETED_TIMED_OUT_LIMIT_SECS
      POLLING_INTERVAL_SECS bootCompleted).1 then
    (.ok (), [.pollEv])
  else
    (.error ⟨"Device took too long to finish rebooting."⟩, [.pollEv])

/-- Models ProfilerCommandExecutor.stop_process
(src/src/command_executor.py lines 185-197): for simpleperf, send SIGINT
and bound-wait for the post-processing package to stop running (the
stopped stream gives the polled predicate values), raising on timeout; for
any other name (perfetto), kill the process outright. -/
def stop_process (name : Profiler) (stopped : ℕ → Bool) :
    Except Fatal Unit × List AdbEv :=
  match name with
  | .simpleperf =>
    if (poll_is_task_completed SIMPLEPERF_STOP_TIMEOUT_SECS
        POLLING_INTERVAL_SECS stopped).1 then
      (.ok (), [.sendSignalEv, .pollEv])
    else
      (.error ⟨"Simpleperf post-processing took too long."⟩,
        [.sendSignalEv, .pollEv])
  | .perfetto => (.ok (), [.killProcessEv])

/-- Claim C8: each bounded wait of the system — the post-root reconnect
wait, the boot-completion wait and the simpleperf stop wait — raises an
unrecoverable exception when its polled predicate does not become true
within the operation's timeout; the result is carried on the exception
channel (the functions have no ValidationError return path), and the
failed wait is not retried: the trace holds exactly one poll. -/
theorem claim_C8_bounded_wait_timeout (connected bootCompleted
    stopped : ℕ → Bool) :
    ((poll_is_task_completed ADB_ROOT_TIMED_OUT_LIMIT_SECS
        POLLING_INTERVAL_SECS connected).1 = false →
      root_device connected
        = (.error ⟨"Device took too long to reconnect after being rooted."⟩,
            [.adbRootCmdEv, .pollEv]) ∧
      (root_device connected).2.countP (fun ev => ev = .pollEv) = 1) ∧
    ((poll_is_task_completed ADB_BOOT_COMPLETED_TIMED_OUT_LIMIT_SECS
        POLLING_INTERVAL_SECS bootCompleted).1 = false →
      wait_for_boot_to_complete bootCompleted
        = (.error ⟨"Device took too long to finish rebooting."⟩, [.pollEv]) ∧
      (wait_for_boot_to_complete bootCompleted).2.countP
        (fun ev => ev = .pollEv) = 1) ∧
    ((poll_is_task_completed SIMPLEPERF_STOP_TIMEOUT_SECS
        POLLING_INTERVAL_SECS stopped).1 = false →
      stop_process .simpleperf stopped
        = (.error ⟨"Simpleperf post-processing took too long."⟩,
            [.sendSignalEv, .pollEv]) ∧
      (stop_process .simpleperf stopped).2.countP
        (fun ev => ev = .pollEv) = 1) := by
  refine ⟨fun hc => ?_, fun hb => ?_, fun hs => ?_⟩
  · rw [root_device, if_neg (by simp [hc])]
    simp [root_device, hc, List.countP_cons]
  · rw [wait_for_boot_to_complete, if_neg (by simp [hb])]
    simp [wait_for_boot_to_complete, hb, List.countP_cons]
  · rw [stop_process]
    simp [hs, List.countP_cons]

lemma poll_never_completes (t i : ℚ) (ht : 0 ≤ t) (hi : 0 < i) :
    (poll_is_task_completed t i (fun _ => false)).1 = false := by
  obtain ⟨m, _, _, hiff, _⟩ := poll_spec t i (fun _ => false) ht hi
  cases hres : (poll_is_task_completed t i (fun _ => false)).1
  · rfl
  · obtain ⟨_, _, hcj⟩ := hiff.mp hres
    exact absurd hcj (by simp)

/-- Witness for claim C8 with predicates that never become true. -/
theorem claim_C8_bounded_wait_timeout_witness :
    (((poll_is_task_completed ADB_ROOT_TIMED_OUT_LIMIT_SECS
        POLLING_INTERVAL_SECS (fun _ => false)).1 = false →
      root_device (fun _ => false)
        = (.error ⟨"Device took too long to reconnect after being rooted."⟩,
            [.adbRootCmdEv, .pollEv]) ∧
      (root_device (fun _ => false)).2.countP (fun ev => ev = .pollEv) = 1) ∧
    ((poll_is_task_completed ADB_BOOT_COMPLETED_TIMED_OUT_LIMIT_SECS
        POLLING_INTERVAL_SECS (fun _ => false)).1 = false →
      wait_for_boot_to_complete (fun _ => false)
        = (.error ⟨"Device took too long to finish rebooting."⟩, [.pollEv]) ∧
      (wait_for_boot_to_complete (fun _ => false)).2.countP
        (fun ev => ev = .pollEv) = 1) ∧
    ((poll_is_task_completed SIMPLEPERF_STOP_TIMEOUT_SECS
        POLLING_INTERVAL_SECS (fun _ => false)).1 = false →
      stop_process .simpleperf (fun _ => false)
        = (.error ⟨"Simpleperf post-processing took too long."⟩,
            [.sendSignalEv, .pollEv]) ∧
      (stop_process .simpleperf (fun _ => false)).2.countP
        (fun ev => ev = .pollEv) = 1)) ∧
    (poll_is_task_completed ADB_ROOT_TIMED_OUT_LIMIT_SECS
      POLLING_INTERVAL_SECS (fun _ => false)).1 = false :=
  ⟨claim_C8_bounded_wait_timeout (fun _ => false) (fun _ => false)
      (fun _ => false),
    poll_never_completes _ _ (by norm_num [ADB_ROOT_TIMED_OUT_LIMIT_SECS])
      (by norm_num [POLLING_INTERVAL_SECS])⟩

/-- Trace of the wait_for_trace loop (src/src/command_executor.py lines
156-165): the loop re-reads is_trace_cancelled every half second until it
becomes true; the argument is the number of negative reads that precede
the first positive one. -/
def wait_for_trace : ℕ → List AdbEv
  | 0 => [.waitTraceIterEv]
  | n + 1 => .waitTraceIterEv :: wait_for_trace n

/-- Environment of one ProfilerCommandExecutor.execute_run call: the
profiler in use, the value returned by the variant's trigger_system_event
hook, the polled predicate stream of a possible stop_process wait, the
number of negative wait_for_trace reads, and whether the profiler package
is still running after the wait. -/
structure RunEnv where
  profiler : Profiler
  triggerResult : Option ValidationError
  stopped : ℕ → Bool
  waitIters : ℕ
  runningAfter : Bool

/-- Models ProfilerCommandExecutor.execute_run (src/src/command_executor.py
lines 138-154): start the tracing tool, sleep the fixed settle delay,
invoke trigger_system_event; on a trigger error stop the tracing tool and
return the error (the stop itself may raise); otherwise wait for the trace
to finish and stop the tool if its package still runs. -/
def execute_run (env : RunEnv) :
    Except Fatal (Option ValidationError) × List AdbEv :=
  match env.triggerResult with
  | some e =>
    let s := stop_process env.profiler env.stopped
    match s.1 with
    | .error f =>
      (.error f,
        [.startTraceEv env.profiler, .traceStartDelayEv,
          .triggerSystemEventEv] ++ s.2)
    | .ok _ =>
      (.ok (some e),
        [.startTraceEv env.profiler, .traceStartDelayEv,
          .triggerSystemEventEv] ++ s.2)
  | none =>
    if env.runningAfter then
      let s := stop_process env.profiler env.stopped
      match s.1 with
      | .error f =>
        (.error f,
          [.startTraceEv env.profiler, .traceStartDelayEv,
            .triggerSystemEventEv] ++ wait_for_trace env.waitIters
            ++ [.checkRunningEv] ++ s.2)
      | .ok _ =>
        (.ok none,
          [.startTraceEv env.profiler, .traceStartDelayEv,
            .triggerSystemEventEv] ++ wait_for_trace env.waitIters
            ++ [.checkRunningEv] ++ s.2)
    else
      (.ok none,
        [.startTraceEv env.profiler, .traceStartDelayEv,
          .triggerSystemEventEv] ++ wait_for_trace env.waitIters
          ++ [.checkRunningEv])

lemma loopGo_stops_at_error (h : HookSpec) (runs : ℕ) (ui : Bool) (r : ℕ)
    (hfail : h.executeRun r ≠ .ok) :
    ∀ (m r0 : ℕ) (flag : Bool), r0 ≤ r →
      Ev.retrieveEv r ∉ (loopGo h runs ui flag (List.range' r0 m)).2 ∧
      ∀ r2, r < r2 →
        Ev.executeRunEv r2 ∉ (loopGo h runs ui flag (List.range' r0 m)).2 := by
  intro m
  induction m with
  | zero =>
    intro r0 flag _
    cases ui <;> simp [loopGo, loopFinishEvents]
  | succ m ih =>
    intro r0 flag hr0
    rw [List.range'_succ r0 m 1]
    cases hpr : h.prepareRun r0 with
    | fatal f => simp [loopGo, hpr]
    | err e => simp [loopGo, hpr]
    | ok =>
      by_cases h1 : (flag || h.arrive1 r0) = true
      · simp [loopGo, hpr, h1]
      · simp only [Bool.not_eq_true] at h1
        cases hex : h.executeRun r0 with
        | fatal f =>
          constructor
          · simp [loopGo, hpr, hex, h1]
          · intro r2 hr2
            have : r2 ≠ r0 := by omega
            simp [loopGo, hpr, hex, h1, this]
        | err e =>
          constructor
          · simp [loopGo, hpr, hex, h1]
          · intro r2 hr2
            have : r2 ≠ r0 := by omega
            simp [loopGo, hpr, hex, h1, this]
        | ok =>
          have hne : r0 ≠ r := fun hcontra => hfail (hcontra ▸ hex)
          have hr0r : r0 + 1 ≤ r := by omega
          cases hrt : h.retrieve r0 with
          | fatal f =>
            constructor
            · simp [loopGo, hpr, hex, hrt, h1, Ne.symm hne]
            · intro r2 hr2
              have : r2 ≠ r0 := by omega
              simp [loopGo, hpr, hex, hrt, h1, this]
          | err e =>
            constructor
            · simp [loopGo, hpr, hex, hrt, h1, Ne.symm hne]
            · intro r2 hr2
              have : r2 ≠ r0 := by omega
              simp [loopGo, hpr, hex, hrt, h1, this]
          | ok =>
            by_cases hlast : runs = r0 <;>
              cases hf : flag <;> cases ha1 : h.arrive1 r0 <;>
                cases ha2 : h.arrive2 r0 <;> cases hans : h.contAnswer r0 <;>
                  simp_all [loopGo] <;>
                    first
                      | exact ⟨fun hmem =>
                            (ih (r0 + 1) false hr0r).1 hmem,
                          fun r2 hr2 => ⟨by omega, fun hmem =>
                            (ih (r0 + 1) false hr0r).2 r2 hr2 hmem⟩⟩
                      | exact ⟨Ne.symm hne, fun r2 hr2 => by omega⟩

lemma loopGo_first_failure (h : HookSpec) (runs : ℕ) (ui : Bool) (r : ℕ)
    (hclean : ∀ j, j < r →
      h.prepareRun j = .ok ∧ h.executeRun j = .ok ∧ h.retrieve j = .ok)
    (ha1 : ∀ j, h.arrive1 j = false) (ha2 : ∀ j, h.arrive2 j = false)
    (hprep : h.prepareRun r = .ok) :
    ∀ m r0 : ℕ, r0 ≤ r → r < r0 + m →
      (∀ e, h.executeRun r = .err e →
        (loopGo h runs ui false (List.range' r0 m)).1 = .ret (some e)) ∧
      (∀ f, h.executeRun r = .fatal f →
        (loopGo h runs ui false (List.range' r0 m)).1 = .fatal f) ∧
      (h.executeRun r ≠ .ok →
        Ev.executeRunEv r ∈ (loopGo h runs ui false (List.range' r0 m)).2) := by
  intro m
  induction m with
  | zero =>
    intro r0 hle hlt
    omega
  | succ m ih =>
    intro r0 hle hlt
    rw [List.range'_succ r0 m 1]
    by_cases hr0 : r0 = r
    · subst hr0
      refine ⟨fun e2 hex => ?_, fun f hex => ?_, fun hne => ?_⟩
      · simp [loopGo, hprep, hex, ha1]
      · simp [loopGo, hprep, hex, ha1]
      · cases hex : h.executeRun r0 with
        | ok => exact absurd hex hne
        | err e2 => simp [loopGo, hprep, hex, ha1]
        | fatal f => simp [loopGo, hprep, hex, ha1]
    · have hlt0 : r0 < r := by omega
      obtain ⟨hp0, he0, ht0⟩ := hclean r0 hlt0
      have hrec := ih (r0 + 1) (by omega) (by omega)
      by_cases hlast : runs = r0
      · subst hlast
        refine ⟨fun e2 hex => ?_, fun f hex => ?_, fun hne => ?_⟩
        · simpa [loopGo, hp0, he0, ht0, ha1, ha2] using hrec.1 e2 hex
        · simpa [loopGo, hp0, he0, ht0, ha1, ha2] using hrec.2.1 f hex
        · have hmem := hrec.2.2 hne
          simp [loopGo, hp0, he0, ht0, ha1, ha2]
          tauto
      · refine ⟨fun e2 hex => ?_, fun f hex => ?_, fun hne => ?_⟩
        · simpa [loopGo, hp0, he0, ht0, ha1, ha2, hlast] using hrec.1 e2 hex
        · simpa [loopGo, hp0, he0, ht0, ha1, ha2, hlast] using hrec.2.1 f hex
        · have hmem := hrec.2.2 hne
          simp [loopGo, hp0, he0, ht0, ha1, ha2, hlast]
          tauto

/-- Claim C4 (amended): when the variant's trigger_system_event hook
returns an error, execute_run does not await the run; it stops the tracing
tool, and returns the trigger error whenever the stop completes (always,
for perfetto) — if the profiler is simpleperf and the stop wait times out,
that fatal fault propagates instead of the returned error.  At the loop
level, in either case — the run execution returning an error or raising a
fault — execute_command propagates that outcome at once: the failed run's
artifact is never retrieved and no later run is ever attempted. -/
theorem claim_C4_trigger_error (env : RunEnv) (e : ValidationError)
    (htr : env.triggerResult = some e)
    (h : HookSpec) (N : ℕ) (ui : Bool) (r : ℕ) (hr1 : 1 ≤ r) (hrN : r ≤ N)
    (hclean : ∀ j, j < r →
      h.prepareRun j = .ok ∧ h.executeRun j = .ok ∧ h.retrieve j = .ok)
    (ha1 : ∀ j, h.arrive1 j = false) (ha2 : ∀ j, h.arrive2 j = false)
    (hcc : h.createConfig = .ok) (hpd : h.prepareDevice = .ok)
    (hprep : h.prepareRun r = .ok) (hfail : h.executeRun r ≠ .ok) :
    ((execute_run env).2
      = [.startTraceEv env.profiler, .traceStartDelayEv,
          .triggerSystemEventEv] ++ (stop_process env.profiler env.stopped).2 ∧
      AdbEv.waitTraceIterEv ∉ (execute_run env).2 ∧
      ((stop_process env.profiler env.stopped).1 = .ok () →
        (execute_run env).1 = .ok (some e)) ∧
      (env.profiler = .perfetto → (execute_run env).1 = .ok (some e)) ∧
      (∀ f, (stop_process env.profiler env.stopped).1 = .error f →
        (execute_run env).1 = .error f)) ∧
    ((∀ e2, h.executeRun r = .err e2 →
        (execute_command h N ui).1 = .ret (some e2)) ∧
      (∀ f, h.executeRun r = .fatal f →
        (execute_command h N ui).1 = .fatal f) ∧
      Ev.executeRunEv r ∈ (execute_command h N ui).2 ∧
      Ev.retrieveEv r ∉ (execute_command h N ui).2 ∧
      ∀ r2, r < r2 → Ev.executeRunEv r2 ∉ (execute_command h N ui).2) := by
  constructor
  · have hstopTrace : AdbEv.waitTraceIterEv ∉
        (stop_process env.profiler env.stopped).2 := by
      cases env.profiler <;> simp only [stop_process] <;>
        first
          | (split <;> simp)
          | simp
    refine ⟨?_, ?_, ?_, ?_, ?_⟩
    · cases hstop : (stop_process env.profiler env.stopped).1 <;>
        simp [execute_run, htr, hstop]
    · cases hstop : (stop_process env.profiler env.stopped).1 <;>
        simpa [execute_run, htr, hstop] using hstopTrace
    · intro hok
      simp [execute_run, htr, hok]
    · intro hperf
      simp [execute_run, htr, hperf, stop_process]
    · intro f2 hf2
      simp [execute_run, htr, hf2]
  · have hstops := loopGo_stops_at_error h N ui r hfail N 1 false hr1
    have hfirst := loopGo_first_failure h N ui r hclean ha1 ha2
      hprep N 1 hr1 (by omega)
    refine ⟨fun e2 hex => ?_, fun f hex => ?_, ?_, ?_, ?_⟩
    · simp [execute_command, hcc, hpd, hfirst.1 e2 hex]
    · simp [execute_command, hcc, hpd, hfirst.2.1 f hex]
    · simp [execute_command, hcc, hpd]
      exact hfirst.2.2 hfail
    · simp [execute_command, hcc, hpd]
      exact hstops.1
    · intro r2 hr2
      simp [execute_command, hcc, hpd]
      exact hstops.2 r2 hr2

/-- Environment and hooks for the witness of claim C4: a perfetto session
whose app-startup trigger fails on run 1 of 2. -/
def c4WEnv : RunEnv where
  profiler := .perfetto
  triggerResult :=
    some ⟨"Cannot start package because it is a service package.", none⟩
  stopped := fun _ => true
  waitIters := 0
  runningAfter := false

def c4WHooks : HookSpec where
  createConfig := .ok
  prepareDevice := .ok
  prepareRun := fun _ => .ok
  executeRun := fun r =>
    if r = 1 then
      .err ⟨"Cannot start package because it is a service package.", none⟩
    else .ok
  retrieve := fun _ => .ok
  cleanup := none
  openTrace := none
  arrive1 := fun _ => false
  arrive2 := fun _ => false
  contAnswer := fun _ => true

/-- Hooks in which run 1 of 2 raises instead of returning an error, as when
the simpleperf stop wait inside execute_run times out. -/
def c4WHooksF : HookSpec where
  createConfig := .ok
  prepareDevice := .ok
  prepareRun := fun _ => .ok
  executeRun := fun r =>
    if r = 1 then
      .fatal ⟨"Simpleperf post-processing took too long."⟩
    else .ok
  retrieve := fun _ => .ok
  cleanup := none
  openTrace := none
  arrive1 := fun _ => false
  arrive2 := fun _ => false
  contAnswer := fun _ => true

/-- Witness for claim C4 on a concrete failing trigger, exercising both the
returned-error case (c4WHooks) and the raised-fault case (c4WHooksF). -/
theorem claim_C4_trigger_error_witness :
    ((execute_run c4WEnv).2
      = [.startTraceEv c4WEnv.profiler, .traceStartDelayEv,
          .triggerSystemEventEv]
          ++ (stop_process c4WEnv.profiler c4WEnv.stopped).2 ∧
      AdbEv.waitTraceIterEv ∉ (execute_run c4WEnv).2 ∧
      ((stop_process c4WEnv.profiler c4WEnv.stopped).1 = .ok () →
        (execute_run c4WEnv).1 = .ok (some
          ⟨"Cannot start package because it is a service package.", none⟩)) ∧
      (c4WEnv.profiler = .perfetto →
        (execute_run c4WEnv).1 = .ok (some
          ⟨"Cannot start package because it is a service package.", none⟩)) ∧
      (∀ f, (stop_process c4WEnv.profiler c4WEnv.stopped).1 = .error f →
        (execute_run c4WEnv).1 = .error f)) ∧
    ((execute_command c4WHooks 2 false).1 = .ret (some
        ⟨"Cannot start package because it is a service package.", none⟩) ∧
      Ev.executeRunEv 1 ∈ (execute_command c4WHooks 2 false).2 ∧
      Ev.retrieveEv 1 ∉ (execute_command c4WHooks 2 false).2 ∧
      ∀ r2, 1 < r2 →
        Ev.executeRunEv r2 ∉ (execute_command c4WHooks 2 false).2) ∧
    ((execute_command c4WHooksF 2 false).1
        = .fatal ⟨"Simpleperf post-processing took too long."⟩ ∧
      Ev.executeRunEv 1 ∈ (execute_command c4WHooksF 2 false).2 ∧
      Ev.retrieveEv 1 ∉ (execute_command c4WHooksF 2 false).2 ∧
      ∀ r2, 1 < r2 →
        Ev.executeRunEv r2 ∉ (execute_command c4WHooksF 2 false).2) := by
  have hclean : ∀ j, j < 1 → c4WHooks.prepareRun j = .ok ∧
      c4WHooks.executeRun j = .ok ∧ c4WHooks.retrieve j = .ok := by
    intro j hj
    have hj0 : j = 0 := by omega
    subst hj0
    exact ⟨rfl, rfl, rfl⟩
  have hcleanF : ∀ j, j < 1 → c4WHooksF.prepareRun j = .ok ∧
      c4WHooksF.executeRun j = .ok ∧ c4WHooksF.retrieve j = .ok := by
    intro j hj
    have hj0 : j = 0 := by omega
    subst hj0
    exact ⟨rfl, rfl, rfl⟩
  have h1 := claim_C4_trigger_error c4WEnv
    ⟨"Cannot start package because it is a service package.", none⟩ rfl
    c4WHooks 2 false 1 (by norm_num) (by norm_num) hclean
    (fun _ => rfl) (fun _ => rfl) rfl rfl rfl (by simp [c4WHooks])
  have h2 := claim_C4_trigger_error c4WEnv
    ⟨"Cannot start package because it is a service package.", none⟩ rfl
    c4WHooksF 2 false 1 (by norm_num) (by norm_num) hcleanF
    (fun _ => rfl) (fun _ => rfl) rfl rfl rfl (by simp [c4WHooksF])
  exact ⟨h1.1,
    ⟨h1.2.1 _ rfl, h1.2.2.2.1, h1.2.2.2.2.1, h1.2.2.2.2.2⟩,
    ⟨h2.2.2.1 _ rfl, h2.2.2.2.1, h2.2.2.2.2.1, h2.2.2.2.2.2⟩⟩

/-- Environment in which the trigger fails during a simpleperf run and the
simpleperf post-processing never stops. -/
def c4CEnv : RunEnv where
  profiler := .simpleperf
  triggerResult :=
    some ⟨"Cannot start package because it is a service package.", none⟩
  stopped := fun _ => false
  waitIters := 0
  runningAfter := false

/-- Counterexample to claim C4 as stated: with a simpleperf profiler whose
post-processing never stops, a failing trigger makes execute_run raise the
stop-wait timeout fault instead of returning the trigger error, so the
claimed "returns that error" does not hold on this input. -/
theorem claim_C4_counterexample :
    (execute_run c4CEnv).1
      = .error ⟨"Simpleperf post-processing took too long."⟩ ∧
    ∀ e : Option ValidationError, (execute_run c4CEnv).1 ≠ .ok e := by
  have hstop : (poll_is_task_completed SIMPLEPERF_STOP_TIMEOUT_SECS
      POLLING_INTERVAL_SECS (fun _ => false)).1 = false :=
    poll_never_completes _ _ (by norm_num [SIMPLEPERF_STOP_TIMEOUT_SECS])
      (by norm_num [POLLING_INTERVAL_SECS])
  have hres : (execute_run c4CEnv).1
      = .error ⟨"Simpleperf post-processing took too long."⟩ := by
    simp [execute_run, c4CEnv, stop_process, hstop]
  exact ⟨hres, fun e => by simp [hres]⟩

/-- Fields of a ProfilerCommand (command.py lines 47-76).  original_user
is the extra attribute introduced for user-switch commands; error-message
interpolation of field values is elided, the messages keep their fixed
text. -/
structure Cmd where
  event : String
  profiler : String
  out_dir : String
  dur_ms : Option Int
  app : Option String
  runs : Int
  simpleperf_event : Option (List String)
  perfetto_config : String
  between_dur_ms : Int
  use_ui : Bool
  excluded_ftrace_events : Option (List String)
  included_ftrace_events : Option (List String)
  from_user : Option Int
  to_user : Option Int
  original_user : Option Int
deriving DecidableEq, Repr

/-- Device state read by device-side validation: the user IDs that exist
on the device and the current user. -/
structure DeviceState where
  users : List Int
  currentUser : Int
deriving DecidableEq, Repr

/-- Device interactions of ProfilerCommand.validate_user_switch: the two
reads it performs and the user-switch write it must not perform. -/
inductive DevEv where
  | userExistsEv (u : Option Int)
  | getCurrentUserEv
  | performUserSwitchEv (u : Int)
deriving DecidableEq, Repr

/-- The error AdbDevice.user_exists returns for an unknown user ID. -/
def userNotFoundError : ValidationError :=
  ⟨"User ID does not exist on device.",
    some "Select from one of the user IDs on the device."⟩

/-- Models AdbDevice.user_exists (device.py lines 118-126).  The argument
is optional because validate_user_switch passes to_user, which can be the
Python None (never a member of the integer user list). -/
def user_exists (dev : DeviceState) (user : Option Int) :
    Option ValidationError :=
  match user with
  | some u => if u ∈ dev.users then none else some userNotFoundError
  | none => some userNotFoundError

/-- The error validate_user_switch returns when the from-user equals the
to-user (command.py lines 99-104). -/
def sameUserError : ValidationError :=
  ⟨"Cannot perform user-switch because the current user on the device is already the from-user.",
    some "Choose a --to-user ID that is different than the --from-user ID."⟩

/-- Models ProfilerCommand.validate_user_switch (command.py lines 88-105):
check that the to-user exists, capture the current user as original_user,
default from_user to the current user when it was not given (otherwise
check it exists), and reject when from_user equals to_user.  Returns the
possibly-updated command, the validation outcome, and the trace of device
interactions. -/
def validate_user_switch (cmd : Cmd) (dev : DeviceState) :
    (Cmd × Option ValidationError) × List DevEv :=
  match user_exists dev cmd.to_user with
  | some e => ((cmd, some e), [.userExistsEv cmd.to_user])
  | none =>
    let cmd1 := { cmd with original_user := some dev.currentUser }
    match cmd1.from_user with
    | none =>
      let cmd2 := { cmd1 with from_user := some dev.currentUser }
      if cmd2.from_user = cmd2.to_user then
        ((cmd2, some sameUserError),
          [.userExistsEv cmd.to_user, .getCurrentUserEv])
      else
        ((cmd2, none), [.userExistsEv cmd.to_user, .getCurrentUserEv])
    | some fu =>
      match user_exists dev (some fu) with
      | some e =>
        ((cmd1, some e),
          [.userExistsEv cmd.to_user, .getCurrentUserEv,
            .userExistsEv (some fu)])
      | none =>
        if cmd1.from_user = cmd1.to_user then
          ((cmd1, some sameUserError),
            [.userExistsEv cmd.to_user, .getCurrentUserEv,
              .userExistsEv (some fu)])
        else
          ((cmd1, none),
            [.userExistsEv cmd.to_user, .getCurrentUserEv,
              .userExistsEv (some fu)])

/-- Claim C5 (amended): the to_user = from_user rejection fires when
from_user is left unset and the device's current user already equals
to_user — from_user then defaults to the captured current user — and the
validation performs no device mutation; with an explicit from_user
different from to_user no such rejection occurs (see the
counterexample). -/
theorem claim_C5_user_switch_validation (cmd : Cmd) (dev : DeviceState)
    (t : Int) (hto : cmd.to_user = some t) (hfrom : cmd.from_user = none)
    (hmem : t ∈ dev.users) (hcur : dev.currentUser = t) :
    (validate_user_switch cmd dev).1.2 = some sameUserError ∧
    ∀ u, DevEv.performUserSwitchEv u ∉ (validate_user_switch cmd dev).2 := by
  constructor
  · simp [validate_user_switch, user_exists, hto, hfrom, hmem, hcur]
  · intro u
    simp [validate_user_switch, user_exists, hto, hfrom, hmem, hcur]

/-- Witness for claim C5: from_user unset, to_user 11, current user 11. -/
theorem claim_C5_user_switch_validation_witness :
    (validate_user_switch
      ⟨"user-switch", "perfetto", ".", some 10000, none, 1, none, "default",
        10000, true, none, none, none, some 11, none⟩
      ⟨[0, 10, 11], 11⟩).1.2 = some sameUserError ∧
    ∀ u, DevEv.performUserSwitchEv u ∉
      (validate_user_switch
        ⟨"user-switch", "perfetto", ".", some 10000, none, 1, none, "default",
          10000, true, none, none, none, some 11, none⟩
        ⟨[0, 10, 11], 11⟩).2 :=
  claim_C5_user_switch_validation _ _ 11 rfl rfl (by decide) rfl

/-- The command of the scenario claim C5 describes: an explicit
from_user = 10, to_user = 11. -/
def c5Cmd : Cmd :=
  ⟨"user-switch", "perfetto", ".", some 10000, none, 1, none, "default",
    10000, true, none, none, some 10, some 11, none⟩

/-- The device of the scenario claim C5 describes: current user already
11 at session start. -/
def c5Dev : DeviceState := ⟨[0, 10, 11], 11⟩

/-- Counterexample to claim C5 as stated: with from_user = 10 and
to_user = 11 and the current user already 11, validate_user_switch
returns no error at all — the claimed to_user = from_user rejection does
not happen, because the check compares to_user against the explicit
from_user (10), not against the current user. -/
theorem claim_C5_counterexample :
    (validate_user_switch c5Cmd c5Dev).1.2 = none := by decide

/-- The predefined perfetto configuration names
(src/src/config_builder.py lines 557-561). -/
def PREDEFINED_PERFETTO_CONFIGS : List String :=
  ["default", "lightweight", "memory"]

/-- The duration field marker build_custom_config scans for. -/
def durationKeyStr : String := "duration_ms:"

/-- Models Python str.strip(): remove leading and trailing whitespace.
Defined over the character list so that it evaluates by kernel
reduction. -/
def pyStrip (s : String) : String :=
  ⟨((s.data.dropWhile Char.isWhitespace).reverse.dropWhile
      Char.isWhitespace).reverse⟩

/-- Models Python str.startswith(p). -/
def pyStartsWith (s p : String) : Bool :=
  p.data.isPrefixOf s.data

/-- Models the Python slice s[n:] over characters. -/
def pyDropChars (s : String) (n : ℕ) : String :=
  ⟨s.data.drop n⟩

/-- Digit run of the Python int() grammar: at least one decimal digit and
nothing else. -/
def digitsToNatGo (acc : ℕ) : List Char → Option ℕ
  | [] => some acc
  | c :: rest =>
    if c.isDigit then digitsToNatGo (acc * 10 + (c.toNat - 48)) rest
    else none

def digitsToNat : List Char → Option ℕ
  | [] => none
  | c :: rest => digitsToNatGo 0 (c :: rest)

/-- Models the Python int() conversion applied to the duration text:
optional surrounding whitespace, an optional sign, then decimal digits;
anything else raises ValueError (modelled as none).  Underscore digit
grouping is not modelled. -/
def pyParseInt (s : String) : Option Int :=
  match (pyStrip s).data with
  | '-' :: rest => (digitsToNat rest).map (fun n => -(n : Int))
  | '+' :: rest => (digitsToNat rest).map (fun n => (n : Int))
  | l => (digitsToNat l).map (fun n => (n : Int))

/-- The ValidationError build_custom_config returns when int() raises on
a duration_ms value (src/src/config_builder.py lines 579-585). -/
def durationParseError (cfgPath : String) : ValidationError :=
  ⟨"Failed to parse custom perfetto-config on local file path: " ++ cfgPath
      ++ ". Invalid duration_ms field in config.",
    some "Make sure the perfetto config passed via arguments has a valid duration_ms value."⟩

/-- The text parsed out of one duration_ms line: the stripped remainder of
the stripped line after the marker. -/
def durationTextOf (line : String) : String :=
  pyStrip (pyDropChars (pyStrip line) durationKeyStr.length)

/-- Whether a line is a duration_ms line: its stripped form starts with
the marker. -/
def isDurationLine (line : String) : Bool :=
  pyStartsWith (pyStrip line) durationKeyStr

/-- Line loop of build_custom_config (src/src/config_builder.py lines
570-578): accumulate the file content; on a line whose stripped form
starts with the duration marker, parse the remainder, overwrite the
command's dur_ms with it and clear the appended duration — a parse
failure aborts with the ValidationError of the except ValueError branch.
The command accumulates the dur_ms mutations performed so far. -/
def bccGo (cmd : Cmd) (fileContent appendedDuration : String) :
    List String → Cmd × Option String × Option ValidationError
  | [] =>
    (cmd,
      some ("<<EOF\n\n" ++ fileContent ++ "\n" ++ appendedDuration
        ++ "\n\nEOF"),
      none)
  | line :: rest =>
    if isDurationLine line then
      match pyParseInt (durationTextOf line) with
      | none => (cmd, none, some (durationParseError cmd.perfetto_config))
      | some v =>
        bccGo { cmd with dur_ms := some v } (fileContent ++ line ++ "\n") ""
          rest
    else
      bccGo cmd (fileContent ++ line ++ "\n") appendedDuration rest

/-- Models build_custom_config (src/src/config_builder.py lines 564-591):
read the configuration from the user-supplied file (given here as its list
of lines, or none when opening the file raises), appending the command's
dur_ms as a duration_ms line unless the file carries its own.  Returns the
possibly-mutated command together with the (config, error) pair of the
source. -/
def build_custom_config (cmd : Cmd) (file : Option (List String)) :
    Cmd × Option String × Option ValidationError :=
  let appendedDuration :=
    match cmd.dur_ms with
    | some d => durationKeyStr ++ " " ++ toString d
    | none => ""
  match file with
  | none =>
    (cmd, none,
      some ⟨"Failed to parse custom perfetto-config on local file path: "
        ++ cmd.perfetto_config ++ ".", none⟩)
  | some lines => bccGo cmd "" appendedDuration lines

/-- Models ProfilerCommandExecutor.create_config
(src/src/command_executor.py lines 121-127, and the same dispatch in
src/command_executor.py lines 80-84): a perfetto_config naming a
predefined configuration is built by the corresponding predefined builder
(the external Config Provider, passed here as the predef argument);
anything else is treated as a custom config file path. -/
def create_config
    (predef : String → Cmd → Int → Option String × Option ValidationError)
    (cmd : Cmd) (androidSdkVersion : Int) (file : Option (List String)) :
    Cmd × Option String × Option ValidationError :=
  if cmd.perfetto_config ∈ PREDEFINED_PERFETTO_CONFIGS then
    (cmd, (predef cmd.perfetto_config cmd androidSdkVersion).1,
      (predef cmd.perfetto_config cmd androidSdkVersion).2)
  else
    build_custom_config cmd file

/-- The dur_ms value a fully-parsed custom config file leaves on the
command: the last duration_ms line wins, the original value survives when
the file has none. -/
def durationAfterLines (dur : Option Int) : List String → Option Int
  | [] => dur
  | line :: rest =>
    if isDurationLine line then
      match pyParseInt (durationTextOf line) with
      | some v => durationAfterLines (some v) rest
      | none => durationAfterLines dur rest
    else durationAfterLines dur rest

lemma bccGo_preserves : ∀ (lines : List String) (cmd : Cmd) (c a : String),
    (bccGo cmd c a lines).1
      = { cmd with dur_ms := (bccGo cmd c a lines).1.dur_ms } := by
  intro lines
  induction lines with
  | nil => intro cmd c a; simp [bccGo]
  | cons line rest ih =>
    intro cmd c a
    by_cases hd : isDurationLine line = true
    · cases hp : pyParseInt (durationTextOf line)
      · simp [bccGo, hd, hp]
      · simpa [bccGo, hd, hp] using
          ih { cmd with dur_ms := some _ } (c ++ line ++ "\n") ""
    · simp only [Bool.not_eq_true] at hd
      simpa [bccGo, hd] using ih cmd (c ++ line ++ "\n") a

lemma bccGo_all_parsed (lines : List String)
    (hgood : ∀ line ∈ lines, isDurationLine line = true →
      pyParseInt (durationTextOf line) ≠ none) :
    ∀ (cmd : Cmd) (c a : String),
      (bccGo cmd c a lines).2.2 = none ∧
      (bccGo cmd c a lines).1.dur_ms
        = durationAfterLines cmd.dur_ms lines := by
  induction lines with
  | nil => intro cmd c a; simp [bccGo, durationAfterLines]
  | cons line rest ih =>
    intro cmd c a
    by_cases hd : isDurationLine line = true
    · cases hp : pyParseInt (durationTextOf line) with
      | none =>
        exact absurd hp (hgood line (List.mem_cons_self line rest) hd)
      | some v =>
        have hrest := ih (fun l hl hdl => hgood l (List.mem_cons_of_mem _ hl)
          hdl) { cmd with dur_ms := some v } (c ++ line ++ "\n") ""
        simpa [bccGo, hd, hp, durationAfterLines] using hrest
    · simp only [Bool.not_eq_true] at hd
      have hrest := ih (fun l hl hdl => hgood l (List.mem_cons_of_mem _ hl)
        hdl) cmd (c ++ line ++ "\n") a
      simpa [bccGo, hd, durationAfterLines] using hrest

lemma bccGo_bad_line : ∀ (lines : List String),
    (∃ line ∈ lines, isDurationLine line = true ∧
      pyParseInt (durationTextOf line) = none) →
    ∀ (cmd : Cmd) (c a : String),
      (bccGo cmd c a lines).2.2
        = some (durationParseError cmd.perfetto_config) ∧
      (bccGo cmd c a lines).2.1 = none := by
  intro lines
  induction lines with
  | nil =>
    intro hbad
    obtain ⟨line, hmem, _⟩ := hbad
    exact absurd hmem (by simp)
  | cons line rest ih =>
    intro hbad cmd c a
    by_cases hd : isDurationLine line = true
    · cases hp : pyParseInt (durationTextOf line) with
      | none => simp [bccGo, hd, hp]
      | some v =>
        have hbad2 : ∃ l ∈ rest, isDurationLine l = true ∧
            pyParseInt (durationTextOf l) = none := by
          obtain ⟨l, hl, hdl, hpl⟩ := hbad
          rcases List.mem_cons.mp hl with hl0 | hl0
          · subst hl0; exact absurd hpl (by simp [hp])
          · exact ⟨l, hl0, hdl, hpl⟩
        have hrest := ih hbad2 { cmd with dur_ms := some v }
          (c ++ line ++ "\n") ""
        simpa [bccGo, hd, hp] using hrest
    · simp only [Bool.not_eq_true] at hd
      have hbad2 : ∃ l ∈ rest, isDurationLine l = true ∧
          pyParseInt (durationTextOf l) = none := by
        obtain ⟨l, hl, hdl, hpl⟩ := hbad
        rcases List.mem_cons.mp hl with hl0 | hl0
        · subst hl0; exact absurd hdl (by simp [hd])
        · exact ⟨l, hl0, hdl, hpl⟩
      have hrest := ih hbad2 cmd (c ++ line ++ "\n") a
      simpa [bccGo, hd] using hrest

/-- Claim C7: a perfetto_config naming one of the predefined
configurations is built by the predefined builder; any other value is
parsed as a user-supplied custom file.  In a custom file whose
duration_ms lines all parse, build_custom_config succeeds and the
command's dur_ms ends up overridden by the file's last duration_ms value
(unchanged when the file has none); a malformed duration_ms value makes
build_custom_config return a ValidationError value — the ValueError is
caught, there is no fatal channel on this path. -/
theorem claim_C7_config_selection
    (predef : String → Cmd → Int → Option String × Option ValidationError)
    (cmd : Cmd) (sdk : Int) (file : Option (List String))
    (lines : List String) :
    (cmd.perfetto_config ∈ PREDEFINED_PERFETTO_CONFIGS →
      create_config predef cmd sdk file
        = (cmd, (predef cmd.perfetto_config cmd sdk).1,
            (predef cmd.perfetto_config cmd sdk).2)) ∧
    (cmd.perfetto_config ∉ PREDEFINED_PERFETTO_CONFIGS →
      create_config predef cmd sdk file = build_custom_config cmd file) ∧
    ((∀ line ∈ lines, isDurationLine line = true →
        pyParseInt (durationTextOf line) ≠ none) →
      (build_custom_config cmd (some lines)).2.2 = none ∧
      (build_custom_config cmd (some lines)).1.dur_ms
        = durationAfterLines cmd.dur_ms lines) ∧
    ((∃ line ∈ lines, isDurationLine line = true ∧
        pyParseInt (durationTextOf line) = none) →
      (build_custom_config cmd (some lines)).2.2
        = some (durationParseError cmd.perfetto_config) ∧
      (build_custom_config cmd (some lines)).2.1 = none) := by
  refine ⟨fun hin => ?_, fun hout => ?_, fun hgood => ?_, fun hbad => ?_⟩
  · simp [create_config, hin]
  · simp [create_config, hout]
  · simpa [build_custom_config] using
      bccGo_all_parsed lines hgood cmd "" _
  · simpa [build_custom_config] using bccGo_bad_line lines hbad cmd "" _

/-- Witness for claim C7, each conjunct discharged at a concrete input:
the predefined name dispatch at "default", the custom dispatch and the
duration handling at a two-line file overriding dur_ms to 5000, and the
malformed-duration ValidationError at a file whose duration_ms value is
not a number. -/
theorem claim_C7_config_selection_witness :
    create_config (fun _ _ _ => (some "cfg", none))
        { c5Cmd with perfetto_config := "default" } 33 none
      = ({ c5Cmd with perfetto_config := "default" }, some "cfg", none) ∧
    create_config (fun _ _ _ => (some "cfg", none))
        { c5Cmd with perfetto_config := "./my.cfg" } 33
        (some ["buffers", " duration_ms: 5000"])
      = build_custom_config { c5Cmd with perfetto_config := "./my.cfg" }
          (some ["buffers", " duration_ms: 5000"]) ∧
    (build_custom_config c5Cmd
        (some ["buffers", " duration_ms: 5000"])).2.2 = none ∧
    (build_custom_config c5Cmd
        (some ["buffers", " duration_ms: 5000"])).1.dur_ms
      = durationAfterLines c5Cmd.dur_ms ["buffers", " duration_ms: 5000"] ∧
    (build_custom_config c5Cmd (some ["duration_ms: five"])).2.2
      = some (durationParseError c5Cmd.perfetto_config) ∧
    (build_custom_config c5Cmd (some ["duration_ms: five"])).2.1 = none := by
  have h1 := (claim_C7_config_selection (fun _ _ _ => (some "cfg", none))
    { c5Cmd with perfetto_config := "default" } 33 none []).1 (by decide)
  have h2 := (claim_C7_config_selection (fun _ _ _ => (some "cfg", none))
    { c5Cmd with perfetto_config := "./my.cfg" } 33
    (some ["buffers", " duration_ms: 5000"]) []).2.1 (by decide)
  have h3 := (claim_C7_config_selection (fun _ _ _ => (some "cfg", none))
    c5Cmd 33 none ["buffers", " duration_ms: 5000"]).2.2.1 (by decide)
  have h4 := (claim_C7_config_selection (fun _ _ _ => (some "cfg", none))
    c5Cmd 33 none ["duration_ms: five"]).2.2.2 (by decide)
  exact ⟨h1, h2, h3.1, h3.2, h4.1, h4.2⟩

/-- Case analysis of validate_user_switch: the returned command is the
input unchanged, or the input with only original_user set, or (when
from_user was unset) the input with both from_user and original_user set
to the captured current user. -/
lemma validate_user_switch_cases (cmd : Cmd) (dev : DeviceState) :
    (validate_user_switch cmd dev).1.1 = cmd ∨
    (validate_user_switch cmd dev).1.1
      = { cmd with original_user := some dev.currentUser } ∨
    ((validate_user_switch cmd dev).1.1
        = { cmd with
            from_user := some dev.currentUser,
            original_user := some dev.currentUser } ∧
      cmd.from_user = none) := by
  obtain ⟨ev, pf, od, dm, ap, rn, se, pc, bd, uu, ex, inc, fu, tu, ou⟩ := cmd
  unfold validate_user_switch
  cases h1 : user_exists dev tu with
  | some e => exact Or.inl rfl
  | none =>
    dsimp only
    cases fu with
    | none =>
      refine Or.inr (Or.inr ⟨?_, rfl⟩)
      dsimp only
      split <;> rfl
    | some fuv =>
      refine Or.inr (Or.inl ?_)
      dsimp only
      cases h3 : user_exists dev (some fuv) with
      | some e => rfl
      | none =>
        dsimp only
        split <;> rfl

/-- Claim C6 (amended): after construction a ProfilerCommand is mutated
in exactly two places: validate_user_switch sets original_user to the
captured current user and defaults from_user to it when from_user was not
given (an explicitly given from_user is preserved), and
build_custom_config overwrites dur_ms with a duration_ms value found in a
custom config file; every other field keeps its constructor value through
validation and config building. -/
theorem claim_C6_command_mutation (cmd : Cmd) (dev : DeviceState)
    (file : Option (List String)) :
    (validate_user_switch cmd dev).1.1
      = { cmd with
          from_user := (validate_user_switch cmd dev).1.1.from_user,
          original_user :=
            (validate_user_switch cmd dev).1.1.original_user } ∧
    (cmd.from_user ≠ none →
      (validate_user_switch cmd dev).1.1.from_user = cmd.from_user) ∧
    (build_custom_config cmd file).1
      = { cmd with dur_ms := (build_custom_config cmd file).1.dur_ms } := by
  refine ⟨?_, ?_, ?_⟩
  · rcases validate_user_switch_cases cmd dev with h | h | ⟨h, _⟩ <;>
      rw [h] <;> simp
  · intro hfrom
    rcases validate_user_switch_cases cmd dev with h | h | ⟨h, hnone⟩
    · rw [h]
    · rw [h]
    · exact absurd hnone hfrom
  · cases file with
    | none => simp [build_custom_config]
    | some lines =>
      simpa [build_custom_config] using bccGo_preserves lines cmd "" _

/-- The user-switch command of the counterexample to claim C6: from_user
left unset. -/
def c6Cmd : Cmd :=
  ⟨"user-switch", "perfetto", ".", some 10000, none, 1, none, "default",
    10000, true, none, none, none, some 11, none⟩

def c6Dev : DeviceState := ⟨[10, 11], 10⟩

/-- Counterexample to claim C6 as stated: validate_user_switch overwrites
the constructor-set from_user (None becomes the captured current user 10)
on a successfully validated command, so a field set by the constructor
does not keep its value through validation. -/
theorem claim_C6_counterexample :
    (validate_user_switch c6Cmd c6Dev).1.1.from_user ≠ c6Cmd.from_user ∧
    (validate_user_switch c6Cmd c6Dev).1.2 = none := by decide

/-- Witness for claim C6 at an explicit from_user (10) and a custom file
overriding the duration. -/
theorem claim_C6_command_mutation_witness :
    (validate_user_switch c5Cmd c5Dev).1.1
      = { c5Cmd with
          from_user := (validate_user_switch c5Cmd c5Dev).1.1.from_user,
          original_user :=
            (validate_user_switch c5Cmd c5Dev).1.1.original_user } ∧
    (validate_user_switch c5Cmd c5Dev).1.1.from_user = c5Cmd.from_user ∧
    (build_custom_config c5Cmd (some ["buffers", " duration_ms: 5000"])).1
      = { c5Cmd with
          dur_ms := (build_custom_config c5Cmd
            (some ["buffers", " duration_ms: 5000"])).1.dur_ms } :=
  ⟨(claim_C6_command_mutation c5Cmd c5Dev
      (some ["buffers", " duration_ms: 5000"])).1,
    (claim_C6_command_mutation c5Cmd c5Dev
      (some ["buffers", " duration_ms: 5000"])).2.1 (by decide),
    (claim_C6_command_mutation c5Cmd c5Dev
      (some ["buffers", " duration_ms: 5000"])).2.2⟩

/-- Defaults of the argument parser (torq.py lines 24-26). -/
def DEFAULT_DUR_MS : Int := 10000

def MIN_DURATION_MS : Int := 3000

def DEFAULT_OUT_DIR : String := "."

/-- The parsed argument namespace of torq.py.  Subcommand-specific
attributes are optional; absent CLI flags are none. -/
structure Args where
  subcommands : Option String
  event : String
  profiler : String
  out_dir : String
  dur_ms : Int
  app : Option String
  runs : Int
  simpleperf_event : Option (List String)
  perfetto_config : String
  between_dur_ms : Int
  ui : Option Bool
  excluded_ftrace_events : Option (List String)
  included_ftrace_events : Option (List String)
  from_user : Option Int
  to_user : Option Int
  serial : Option String
  hw_subcommand : Option String
  hw_set_config : Option String
  num_cpus : Option Int
  memory : Option String
  config_subcommand : Option String
  config_name : Option String
  file_path : Option String
deriving DecidableEq, Repr

/-- Models user_changed_default_arguments (torq.py lines 132-147). -/
def user_changed_default_arguments (args : Args) : Bool :=
  args.event != "custom" || args.profiler != "perfetto" ||
  args.out_dir != DEFAULT_OUT_DIR || args.dur_ms != DEFAULT_DUR_MS ||
  args.app != none || args.runs != 1 || args.simpleperf_event != none ||
  args.perfetto_config != "default" ||
  args.between_dur_ms != DEFAULT_DUR_MS || args.ui != none ||
  args.excluded_ftrace_events != none ||
  args.included_ftrace_events != none || args.from_user != none ||
  args.to_user != none || args.serial != none

/-- Python len(x) != len(set(x)). -/
def hasDuplicatesB (l : List String) : Bool :=
  !(l.dedup.length == l.length)

/-- Nonempty intersection of the two ftrace event lists (both given). -/
def ftraceIntersectB : Option (List String) → Option (List String) → Bool
  | some x, some y => x.any (fun e => y.contains e)
  | _, _ => false

/-- The hw set --memory format check (torq.py lines 346-352): 'G' must
occur, the last character must be 'G' and the string must be longer than
one character. -/
def memoryBadFormat (m : String) : Bool :=
  match m.data.indexOf? 'G' with
  | none => true
  | some _ => !(m.data.getLast? == some 'G') || m.data.length == 1

/-- The per-character digit check before the first 'G' (torq.py lines
353-359). -/
def memoryNonDigitBeforeG (m : String) : Bool :=
  match m.data.indexOf? 'G' with
  | none => false
  | some idx => !((m.data.take idx).all Char.isDigit)

/-- The leading-zero check (torq.py lines 360-365). -/
def memoryLeadingZero (m : String) : Bool :=
  m.data.head? == some '0'

/-- The in-place defaulting torq.py lines 388-396 performs on a verified
namespace: the simpleperf event list defaults to cpu-cycles, ui defaults
to runs == 1, and config pull's file path defaults from the config
name. -/
def applyArgDefaults (args : Args) : Args :=
  let a1 :=
    if args.profiler = "simpleperf" ∧ args.simpleperf_event = none then
      { args with simpleperf_event := some ["cpu-cycles"] }
    else args
  let a2 :=
    if a1.ui = none then { a1 with ui := some (decide (a1.runs = 1)) }
    else a1
  if a2.subcommands = some "config" ∧ a2.config_subcommand = some "pull"
      ∧ a2.file_path = none then
    { a2 with file_path := some ("./" ++ a2.config_name.getD "" ++ ".pbtxt") }
  else a2

/-- The validation rules of verify_args (torq.py lines 150-387) in source
order: each entry is a failure condition paired with the ValidationError
it returns.  The filesystem queries os.path.isdir and os.path.isfile are
passed in as oracles; message interpolation of argument values is
elided. -/
def argChecks (isdir isfile : String → Bool) (args : Args) :
    List (Bool × ValidationError) :=
  [ (args.subcommands != none && user_changed_default_arguments args,
      ⟨"Command is invalid because profiler command is followed by a hw or config command.",
        some "Remove the hw or config subcommand to profile the device instead."⟩),
    (args.out_dir != DEFAULT_OUT_DIR && !(isdir args.out_dir),
      ⟨"Command is invalid because --out-dir is not a valid directory path.",
        none⟩),
    (decide (args.dur_ms < MIN_DURATION_MS),
      ⟨"Command is invalid because --dur-ms cannot be set to a value smaller than 3000.",
        some "Set --dur-ms 3000 to capture a trace for 3 seconds."⟩),
    (args.from_user != none && args.event != "user-switch",
      ⟨"Command is invalid because --from-user is passed, but --event is not set to user-switch.",
        some "Set --event user-switch --from-user to perform a user-switch."⟩),
    (args.to_user != none && args.event != "user-switch",
      ⟨"Command is invalid because --to-user is passed, but --event is not set to user-switch.",
        some "Set --event user-switch --to-user to perform a user-switch."⟩),
    (args.event == "user-switch" && args.to_user == none,
      ⟨"Command is invalid because --to-user is not passed.",
        some "Set --event user-switch --to-user with a user id to perform a user-switch."⟩),
    (args.app != none && args.event != "app-startup",
      ⟨"Command is invalid because --app is passed and --event is not set to app-startup.",
        some "To profile an app startup run torq --event app-startup --app with a package name."⟩),
    (args.event == "app-startup" && args.app == none,
      ⟨"Command is invalid because --app is not passed.",
        some "Set --event app-startup --app with a package to perform an app-startup."⟩),
    (decide (args.runs < 1),
      ⟨"Command is invalid because --runs cannot be set to a value smaller than 1.",
        none⟩),
    (decide (1 < args.runs) && args.ui == some true,
      ⟨"Command is invalid because --ui cannot be passed if --runs is set to a value greater than 1.",
        some "Set torq -r with --no-ui to perform multiple runs."⟩),
    (args.simpleperf_event != none && args.profiler != "simpleperf",
      ⟨"Command is invalid because --simpleperf-event cannot be passed if --profiler is not set to simpleperf.",
        some "To capture the simpleperf event run torq --profiler simpleperf --simpleperf-event."⟩),
    (Option.any hasDuplicatesB args.simpleperf_event,
      ⟨"Command is invalid because redundant calls to --simpleperf-event cannot be made.",
        some "Only set --simpleperf-event once per collected event."⟩),
    (args.perfetto_config != "default" && args.profiler != "perfetto",
      ⟨"Command is invalid because --perfetto-config cannot be passed if --profiler is not set to perfetto.",
        some "Set --profiler perfetto to choose a perfetto-config to use."⟩),
    (!(PREDEFINED_PERFETTO_CONFIGS.contains args.perfetto_config)
        && !(isfile args.perfetto_config),
      ⟨"Command is invalid because --perfetto-config is not a valid file path.",
        some "Predefined perfetto configs or a filepath with a config can be used."⟩),
    (decide (args.between_dur_ms < MIN_DURATION_MS),
      ⟨"Command is invalid because --between-dur-ms cannot be set to a smaller value than 3000.",
        some "Set --between-dur-ms 3000 to wait 3 seconds between each run."⟩),
    (args.between_dur_ms != DEFAULT_DUR_MS && args.runs == 1,
      ⟨"Command is invalid because --between-dur-ms cannot be passed if --runs is not a value greater than 1.",
        some "Set --runs 2 to run 2 tests."⟩),
    (args.excluded_ftrace_events != none && args.profiler != "perfetto",
      ⟨"Command is invalid because --excluded-ftrace-events cannot be passed if --profiler is not set to perfetto.",
        some "Set --profiler perfetto to exclude an ftrace event from perfetto config."⟩),
    (Option.any hasDuplicatesB args.excluded_ftrace_events,
      ⟨"Command is invalid because duplicate ftrace events cannot be included in --excluded-ftrace-events.",
        some "--excluded-ftrace-events should only include one instance of an ftrace event."⟩),
    (args.included_ftrace_events != none && args.profiler != "perfetto",
      ⟨"Command is invalid because --included-ftrace-events cannot be passed if --profiler is not set to perfetto.",
        some "Set --profiler perfetto to include an ftrace event in perfetto config."⟩),
    (Option.any hasDuplicatesB args.included_ftrace_events,
      ⟨"Command is invalid because duplicate ftrace events cannot be included in --included-ftrace-events.",
        some "--included-ftrace-events should only include one instance of an ftrace event."⟩),
    (ftraceIntersectB args.excluded_ftrace_events
        args.included_ftrace_events,
      ⟨"Command is invalid because an ftrace event cannot be both included and excluded.",
        some "Only set an ftrace event in one of the two ftrace event lists."⟩),
    (args.subcommands == some "hw" && args.hw_subcommand == none,
      ⟨"Command is invalid because torq hw cannot be called without a subcommand.",
        some "Use torq hw set, torq hw get or torq hw list."⟩),
    (args.subcommands == some "hw" && args.hw_subcommand == some "set"
        && args.hw_set_config != none && args.num_cpus != none,
      ⟨"Command is invalid because torq hw --num-cpus cannot be passed if a new hardware configuration is also set at the same time.",
        some "Set torq hw --num-cpus by itself to set the active cores in the hardware."⟩),
    (args.subcommands == some "hw" && args.hw_subcommand == some "set"
        && args.hw_set_config != none && args.memory != none,
      ⟨"Command is invalid because torq hw --memory cannot be passed if a new hardware configuration is also set at the same time.",
        some "Set torq hw --memory by itself to limit the memory of the device."⟩),
    (args.subcommands == some "hw" && args.hw_subcommand == some "set"
        && Option.any (fun n => decide (n < 1)) args.num_cpus,
      ⟨"Command is invalid because hw set --num-cpus cannot be set to smaller than 1.",
        some "Set hw set --num-cpus 1 to set 1 active core in hardware."⟩),
    (args.subcommands == some "hw" && args.hw_subcommand == some "set"
        && Option.any memoryBadFormat args.memory,
      ⟨"Command is invalid because the argument for hw set --memory does not match the expected format.",
        some "Set hw set --memory 4G to limit the memory of the device to 4 gigabytes."⟩),
    (args.subcommands == some "hw" && args.hw_subcommand == some "set"
        && Option.any memoryNonDigitBeforeG args.memory,
      ⟨"Command is invalid because the argument for hw set --memory does not match the expected format.",
        some "Set hw set --memory 4G to limit the memory of the device to 4 gigabytes."⟩),
    (args.subcommands == some "hw" && args.hw_subcommand == some "set"
        && Option.any memoryLeadingZero args.memory,
      ⟨"Command is invalid because hw set --memory cannot be set to smaller than 1.",
        some "Set hw set --memory 4G to limit the memory of the device to 4 gigabytes."⟩),
    (args.subcommands == some "hw" && args.hw_subcommand == some "set"
        && args.hw_set_config == none && args.num_cpus == none
        && args.memory == none,
      ⟨"Command is invalid because torq hw set cannot be called without a subcommand.",
        some "Use torq hw set with a config name, --num-cpus or --memory."⟩),
    (args.subcommands == some "config" && args.config_subcommand == none,
      ⟨"Command is invalid because torq config cannot be called without a subcommand.",
        some "Use torq config list, torq config show or torq config pull."⟩) ]

/-- The error of the first check whose condition fired, matching the
early-return structure of verify_args. -/
def firstError : List (Bool × ValidationError) → Option ValidationError
  | [] => none
  | (c, e) :: rest => if c then some e else firstError rest

/-- Models verify_args (torq.py lines 150-398): the first failing rule is
reported (validation does not aggregate); on success the defaulting
mutations are applied and the namespace is returned. -/
def verify_args (isdir isfile : String → Bool) (args : Args) :
    Option Args × Option ValidationError :=
  match firstError (argChecks isdir isfile args) with
  | some e => (none, some e)
  | none => (some (applyArgDefaults args), none)

lemma firstError_none_iff (l : List (Bool × ValidationError)) :
    firstError l = none ↔ ∀ p ∈ l, p.1 = false := by
  induction l with
  | nil => simp [firstError]
  | cons p rest ih =>
    obtain ⟨c, e⟩ := p
    by_cases hc : c = true
    · simp [firstError, hc]
    · simp only [Bool.not_eq_true] at hc
      simp [firstError, hc, ih]

lemma verify_args_success (isdir isfile : String → Bool) (args res : Args)
    (h : verify_args isdir isfile args = (some res, none)) :
    res = applyArgDefaults args := by
  unfold verify_args at h
  cases hfe : firstError (argChecks isdir isfile args) with
  | some e =>
    rw [hfe] at h
    simp only [Prod.mk.injEq] at h
    exact absurd h.1 (fun hh => Option.noConfusion hh)
  | none =>
    rw [hfe] at h
    simp only [Prod.mk.injEq, Option.some.injEq] at h
    exact h.1.symm

lemma verify_args_no_error (isdir isfile : String → Bool) (args : Args)
    (h : (verify_args isdir isfile args).2 = none) :
    ¬(1 < args.runs ∧ args.ui = some true) := by
  intro hcond
  unfold verify_args at h
  cases hfe : firstError (argChecks isdir isfile args) with
  | some e => rw [hfe] at h; simp at h
  | none =>
    have hall := (firstError_none_iff _).mp hfe
    have hmem : ((decide (1 < args.runs) && args.ui == some true),
        (⟨"Command is invalid because --ui cannot be passed if --runs is set to a value greater than 1.",
          some "Set torq -r with --no-ui to perform multiple runs."⟩
          : ValidationError)) ∈ argChecks isdir isfile args := by
      unfold argChecks
      simp
    have hten := hall _ hmem
    simp only at hten
    simp [hcond.1, hcond.2] at hten

lemma applyArgDefaults_ui (args : Args) :
    (applyArgDefaults args).ui
      = (if args.ui = none then some (decide (args.runs = 1))
          else args.ui) := by
  unfold applyArgDefaults
  by_cases h1 : args.profiler = "simpleperf" ∧ args.simpleperf_event = none
    <;> by_cases h2 : args.ui = none <;> simp [h1, h2] <;> split <;> simp_all

lemma loopGo_cons_openUi (h : HookSpec) (runs : ℕ) (ui : Bool)
    (run : ℕ) (rest : List ℕ) (flag : Bool) :
    Ev.openUiEv ∉ (loopGo h runs ui flag (run :: rest)).2 ∨
    Ev.retrieveEv run ∈ (loopGo h runs ui flag (run :: rest)).2 := by
  cases hpr : h.prepareRun run with
  | fatal f => exact Or.inl (by simp [loopGo, hpr])
  | err e => exact Or.inl (by simp [loopGo, hpr])
  | ok =>
    cases hex : h.executeRun run with
    | fatal f =>
      cases hf : flag <;> cases ha1 : h.arrive1 run <;>
        simp [loopGo, hpr, hex, hf, ha1]
    | err e =>
      cases hf : flag <;> cases ha1 : h.arrive1 run <;>
        simp [loopGo, hpr, hex, hf, ha1]
    | ok =>
      cases hrt : h.retrieve run with
      | fatal f =>
        cases hf : flag <;> cases ha1 : h.arrive1 run <;>
          simp [loopGo, hpr, hex, hrt, hf, ha1]
      | err e =>
        cases hf : flag <;> cases ha1 : h.arrive1 run <;>
          simp [loopGo, hpr, hex, hrt, hf, ha1]
      | ok =>
        by_cases hlast : runs = run <;>
          cases hf : flag <;> cases ha1 : h.arrive1 run <;>
            cases ha2 : h.arrive2 run <;> cases hans : h.contAnswer run <;>
              simp [loopGo, hpr, hex, hrt, hf, ha1, ha2, hans, hlast]

/-- Claim C9: after verify_args succeeds, the ui flag is true exactly when
it was left unset and runs equals 1, or it was explicitly set to true
(explicit ui with runs greater than 1 being rejected as a validation
error); and the UI-opening step of the run loop happens only when at
least one artifact was retrieved. -/
theorem claim_C9_ui_default_and_skip (isdir isfile : String → Bool)
    (args res : Args) (h : HookSpec) (N : ℕ) (ui : Bool) (hN : 1 ≤ N) :
    (verify_args isdir isfile args = (some res, none) →
      (res.ui = some true ↔
        (args.ui = none ∧ args.runs = 1) ∨ args.ui = some true)) ∧
    (args.ui = some true → 1 < args.runs →
      (verify_args isdir isfile args).2 ≠ none) ∧
    (Ev.openUiEv ∈ (execute_command h N ui).2 →
      ∃ r, Ev.retrieveEv r ∈ (execute_command h N ui).2) := by
  refine ⟨fun hsuc => ?_, fun hui hruns => ?_, fun hmem => ?_⟩
  · have hres := verify_args_success isdir isfile args res hsuc
    rw [hres, applyArgDefaults_ui]
    by_cases h1 : args.ui = none <;> simp [h1]
  · intro hnone
    exact verify_args_no_error isdir isfile args hnone ⟨hruns, hui⟩
  · obtain ⟨M, rfl⟩ : ∃ M, N = M + 1 := ⟨N - 1, by omega⟩
    cases hcc : h.createConfig with
    | fatal f => rw [execute_command] at hmem; simp [hcc] at hmem
    | err e => rw [execute_command] at hmem; simp [hcc] at hmem
    | ok =>
      cases hpd : h.prepareDevice with
      | fatal f => rw [execute_command] at hmem; simp [hcc, hpd] at hmem
      | err e => rw [execute_command] at hmem; simp [hcc, hpd] at hmem
      | ok =>
        rw [execute_command] at hmem ⊢
        simp only [hcc, hpd] at hmem ⊢
        rw [List.range'_succ 1 M 1] at hmem ⊢
        have hmem2 : Ev.openUiEv
            ∈ (loopGo h (M + 1) ui false (1 :: List.range' 2 M)).2 := by
          simpa using hmem
        rcases loopGo_cons_openUi h (M + 1) ui 1 (List.range' 2 M) false
          with hno | hyes
        · exact absurd hmem2 hno
        · exact ⟨1, by simp [hyes]⟩

/-- The default argument namespace of the parser (all flags at their
argparse defaults, no subcommand). -/
def defaultArgs : Args :=
  ⟨none, "custom", "perfetto", ".", 10000, none, 1, none, "default", 10000,
    none, none, none, none, none, none, none, none, none, none, none, none,
    none⟩

/-- Witness for claim C9: the default namespace succeeds with ui defaulted
to true; ui explicitly true with runs = 2 is rejected; and a clean
one-run execution that opens the UI has retrieved an artifact. -/
theorem claim_C9_ui_default_and_skip_witness :
    (verify_args (fun _ => true) (fun _ => true) defaultArgs
        = (some { defaultArgs with ui := some true }, none) →
      ({ defaultArgs with ui := some true }.ui = some true ↔
        (defaultArgs.ui = none ∧ defaultArgs.runs = 1)
          ∨ defaultArgs.ui = some true)) ∧
    ({ defaultArgs with ui := some true, runs := 2 }.ui = some true →
      1 < ({ defaultArgs with ui := some true, runs := 2 }).runs →
      (verify_args (fun _ => true) (fun _ => true)
        { defaultArgs with ui := some true, runs := 2 }).2 ≠ none) ∧
    ((verify_args (fun _ => true) (fun _ => true) defaultArgs
        = (some { defaultArgs with ui := some true }, none)) ∧
      ({ defaultArgs with ui := some true }.ui = some true ↔
        (defaultArgs.ui = none ∧ defaultArgs.runs = 1)
          ∨ defaultArgs.ui = some true)) ∧
    ((verify_args (fun _ => true) (fun _ => true)
        { defaultArgs with ui := some true, runs := 2 }).2 ≠ none) ∧
    (Ev.openUiEv ∈ (execute_command c1CancelHooks 1 true).2 →
      ∃ r, Ev.retrieveEv r ∈ (execute_command c1CancelHooks 1 true).2) ∧
    (∃ r, Ev.retrieveEv r ∈ (execute_command c1CancelHooks 1 true).2) := by
  have hth := claim_C9_ui_default_and_skip (fun _ => true) (fun _ => true)
    defaultArgs { defaultArgs with ui := some true } c1CancelHooks 1 true
    (by norm_num)
  have hth2 := claim_C9_ui_default_and_skip (fun _ => true) (fun _ => true)
    { defaultArgs with ui := some true, runs := 2 }
    { defaultArgs with ui := some true, runs := 2 } c1CancelHooks 1 true
    (by norm_num)
  refine ⟨hth.1, hth2.2.1, ⟨by decide, hth.1 (by decide)⟩,
    hth2.2.1 (by decide) (by decide), hth.2.2, hth.2.2 (by decide)⟩

end Torq
